import Mathlib

/-!
Verification of the `$POLN` tokenomics simulation engine (`simulation.py`,
function `simulate`) against its natural-language specification.

The engine is shallowly embedded over exact rational arithmetic:

* every Python float quantity becomes a `ℚ`;
* `np.exp` is abstracted as a parameter `expQ : ℚ → ℚ`; the theorems that
  depend on it only assume positivity (`∀ x, 0 < expQ x`), which the real
  exponential satisfies.  Concrete instantiations use `fun x => 1`, which
  agrees with the real exponential exactly when `growth_rate = 0` (the
  exponent is then `0.0` and `np.exp(-0.0) = 1.0` exactly);
* `int(np.floor(np.log2 x))` becomes `ratLog2Floor`, an exact floor of the
  base-2 logarithm on positive rationals, computed by fueled halving;
* the process-wide random generator becomes a stream `rng : ℕ → ℚ` of the
  underlying `random.random()` draws together with a cursor; the two draw
  sites per month (`random.random()` for the sentiment event, taken only when
  the event counter is zero, then `random.uniform(-rf, rf)`, which CPython
  computes as `a + (b - a) * random()`) consume the stream in program order;
* `int(x)` on a float (truncation toward zero) becomes `ratTrunc`;
* the only fallible operation reachable before the loop, the access
  `private_sales[2]` at line 110 of the source, is modelled by making
  initialisation return an `Option`.
-/

namespace Tokenomics

/-- One entry of the `private_sales` configuration list. -/
structure PrivateSale where
  tokens_sold : ℚ
  vesting_period : ℚ

/-- A private-sale vesting schedule, as built by the pre-loop initialisation
(lines 93-104 of `simulation.py`). -/
structure VSchedule where
  remaining_tokens : ℚ
  vesting_period : ℚ
  vesting_amount_per_month : ℚ
  current_month : ℕ

/-- The configuration record consumed by `simulate` (lines 30-60).
`token_distribution` is flattened into the five `dist_*` fractions the code
reads; `seasonality` keeps its keyed-by-calendar-month shape. -/
structure Config where
  total_supply : ℚ
  initial_price : ℚ
  project_cost : ℚ
  protocol_fee_rate : ℚ
  staking_rate : ℚ
  mission_success_rate : ℚ
  pec : ℚ
  msi_bull : ℚ
  msi_bear : ℚ
  msi_normal : ℚ
  bull_market_probability : ℚ
  bear_market_probability : ℚ
  market_event_duration : ℕ
  random_fluctuation : ℚ
  carrying_capacity : ℚ
  growth_rate : ℚ
  inflection_point : ℚ
  seasonality : List (ℕ × ℚ)
  dist_builders : ℚ
  dist_dao_treasury : ℚ
  dist_airdrops : ℚ
  dist_initiator_rewards : ℚ
  dist_testnet : ℚ
  initiator_selling_percentage : ℚ
  dao_annual_consumption_rate : ℚ
  dao_consumption_start_month : ℚ
  fellowship_selling_percentage : ℚ
  builders_selling_percentage : ℚ
  private_sales : List PrivateSale
  initiator_rewards_monthly : ℚ
  minimum_reward_per_mission : ℚ
  testnet_distribution_period : ℚ
  builders_lockup_period : ℚ
  builders_vesting_period : ℚ

/-- The mutable economic state threaded through the monthly loop. -/
structure SimState where
  circulating_supply : ℚ
  total_supply_current : ℚ
  builders_tokens : ℚ
  dao_treasury : ℚ
  testnet_development_tokens : ℚ
  initiator_rewards_pool : ℚ
  total_burnt_tokens : ℚ
  token_price : ℚ
  schedules : List VSchedule
  reward_per_mission : ℚ
  current_halving_index : ℕ
  market_event_counter : ℕ
  current_msi : ℚ
  deriving Inhabited

/-- One row of the output DataFrame (lines 324-343). -/
structure Record where
  month : ℕ
  circulating_supply : ℚ
  total_supply_current : ℚ
  token_price : ℚ
  tokens_staked : ℚ
  tokens_burnt : ℚ
  tokens_fee_distributed : ℚ
  tokens_fee_to_dao : ℚ
  dao_treasury : ℚ
  total_burnt_tokens : ℚ
  market_sentiment_index : ℚ
  net_token_demand : ℚ
  missions : ℤ
  initiator_rewards_pool : ℚ
  reward_per_mission : ℚ
  halving_index : ℕ
  builders_sold : ℚ
  fellowship_sold : ℚ

/-- Python `int(x)` on a float: truncation toward zero, in exact arithmetic. -/
def ratTrunc (q : ℚ) : ℤ := q.num.tdiv q.den

/-- Floor of `log2 n` for a natural `n ≥ 1`, by fueled halving
(structurally recursive so that it evaluates by kernel reduction). -/
def natLog2Aux : ℕ → ℕ → ℕ
  | 0, _ => 0
  | fuel + 1, n => if n ≤ 1 then 0 else natLog2Aux fuel (n / 2) + 1

/-- `natLog2 n` is the floor of the base-2 logarithm of `n` (0 for `n ≤ 1`). -/
def natLog2 (n : ℕ) : ℕ := natLog2Aux n n

/-- Smallest `k` with `q ≤ 2 ^ k`, for a rational `q` (0 for `q ≤ 1`). -/
def ratCeilLog2Aux : ℕ → ℚ → ℕ
  | 0, _ => 0
  | fuel + 1, q => if q ≤ 1 then 0 else ratCeilLog2Aux fuel (q / 2) + 1

/-- Ceiling of `log2 q` for a rational `q ≥ 1` (0 for `q ≤ 1`). -/
def ratCeilLog2 (q : ℚ) : ℕ := ratCeilLog2Aux q.num.toNat q

/-- Exact value of `int(np.floor(np.log2 q))` for a positive rational `q`:
for `q ≥ 1` it is the floor of `log2 q`, computed on `⌊q⌋`; for `0 < q < 1`
it is `-⌈log2 (1/q)⌉`.  (For `q ≤ 0` the Python program raises — `np.log2`
returns `-inf`/`nan` and `int` rejects both — so no theorem relies on the
value of this function there.) -/
def ratLog2Floor (q : ℚ) : ℤ :=
  if 1 ≤ q then (natLog2 (⌊q⌋).toNat : ℤ) else -(ratCeilLog2 q⁻¹ : ℤ)

/-- The floor `1e-18` applied to the protocol fee (lines 240-241). -/
def epsFee : ℚ := 1 / 10 ^ 18

/-- `builders_tokens` as allocated before the loop (line 66). -/
def Config.builders_tokens0 (cfg : Config) : ℚ :=
  cfg.total_supply * cfg.dist_builders

/-- `dao_treasury` as allocated before the loop (line 67). -/
def Config.dao_treasury0 (cfg : Config) : ℚ :=
  cfg.total_supply * cfg.dist_dao_treasury

/-- `airdrops_giveaways_tokens` (lines 68-69). -/
def Config.airdrops_tokens (cfg : Config) : ℚ :=
  cfg.total_supply * cfg.dist_airdrops

/-- `initiator_rewards_pool` as allocated before the loop (lines 71-72),
also the constant `initial_initiator_rewards_pool` of line 130. -/
def Config.initial_pool (cfg : Config) : ℚ :=
  cfg.total_supply * cfg.dist_initiator_rewards

/-- `testnet_development_tokens` as allocated before the loop (lines 73-75). -/
def Config.testnet_tokens0 (cfg : Config) : ℚ :=
  cfg.total_supply * cfg.dist_testnet

/-- `builders_vesting_per_month` (lines 120-121), computed from the initial
builders allocation. -/
def Config.builders_vesting_per_month (cfg : Config) : ℚ :=
  if 0 < cfg.builders_vesting_period then
    cfg.builders_tokens0 / cfg.builders_vesting_period
  else 0

/-- `dao_consumption_monthly_rate` (lines 124-125). -/
def Config.dao_consumption_monthly_rate (cfg : Config) : ℚ :=
  cfg.dao_annual_consumption_rate / 12

/-- `max_halvings` (lines 134-137): exact value of
`int(np.floor(np.log2(initial_pool / minimum_reward_per_mission)))`. -/
def Config.max_halvings (cfg : Config) : ℤ :=
  ratLog2Floor (cfg.initial_pool / cfg.minimum_reward_per_mission)

/-- `private_sale_vesting_tokens` (lines 78-80): tokens of tranches with a
positive vesting period. -/
def privateSaleVestingTokens (sales : List PrivateSale) : ℚ :=
  (sales.map fun s => if 0 < s.vesting_period then s.tokens_sold else 0).sum

/-- Tokens of tranches whose vesting period is exactly zero, which the
initialisation loop adds to circulating supply immediately (lines 105-107). -/
def zeroVestingTokens (sales : List PrivateSale) : ℚ :=
  (sales.map fun s => if s.vesting_period = 0 then s.tokens_sold else 0).sum

/-- One vesting schedule as built at lines 99-104. -/
def mkVSchedule (sale : PrivateSale) : VSchedule :=
  { remaining_tokens := sale.tokens_sold
    vesting_period := sale.vesting_period
    vesting_amount_per_month :=
      if 0 < sale.vesting_period then sale.tokens_sold / sale.vesting_period
      else 0
    current_month := 0 }

/-- The pre-loop initialisation (lines 62-141).  Returns `none` exactly when
the access `private_sales[2]` at line 110 raises `IndexError`, i.e. when the
`private_sales` list has fewer than three entries. -/
def initState (cfg : Config) : Option SimState :=
  match cfg.private_sales.get? 2 with
  | none => none
  | some sale2 => some
    { circulating_supply :=
        cfg.total_supply -
          (cfg.builders_tokens0 + cfg.dao_treasury0 + cfg.airdrops_tokens +
            privateSaleVestingTokens cfg.private_sales + cfg.initial_pool +
            cfg.testnet_tokens0) +
          zeroVestingTokens cfg.private_sales
      total_supply_current :=
        cfg.total_supply - (cfg.airdrops_tokens + sale2.tokens_sold)
      builders_tokens := cfg.builders_tokens0
      dao_treasury := cfg.dao_treasury0
      testnet_development_tokens := cfg.testnet_tokens0
      initiator_rewards_pool := cfg.initial_pool
      total_burnt_tokens := 0
      token_price := cfg.initial_price
      schedules := cfg.private_sales.map mkVSchedule
      reward_per_mission := cfg.initiator_rewards_monthly
      current_halving_index := 0
      market_event_counter := 0
      current_msi := cfg.msi_normal }

/-- Market Sentiment Index update (lines 146-158).  `rand_event` is the value
of the `random.random()` draw; it is read only in the branch where the event
counter is zero. -/
def msiStep (cfg : Config) (rand_event : ℚ) (st : SimState) : SimState :=
  if 0 < st.market_event_counter then
    { st with market_event_counter := st.market_event_counter - 1 }
  else if rand_event < cfg.bull_market_probability then
    { st with current_msi := cfg.msi_bull
              market_event_counter := cfg.market_event_duration - 1 }
  else if rand_event < cfg.bull_market_probability + cfg.bear_market_probability then
    { st with current_msi := cfg.msi_bear
              market_event_counter := cfg.market_event_duration - 1 }
  else
    { st with current_msi := cfg.msi_normal }

/-- Builders vesting after lockup (lines 161-170); the second component is
`builders_sold`. -/
def buildersStep (cfg : Config) (month : ℕ) (st : SimState) : SimState × ℚ :=
  if cfg.builders_lockup_period < (month : ℚ) ∧ 0 < st.builders_tokens then
    let vesting_amount := min cfg.builders_vesting_per_month st.builders_tokens
    ({ st with builders_tokens := st.builders_tokens - vesting_amount
               circulating_supply := st.circulating_supply + vesting_amount },
      vesting_amount * cfg.builders_selling_percentage)
  else (st, 0)

/-- One private-sale schedule update (lines 174-180); the second component is
the amount released into circulation. -/
def vestSchedule (s : VSchedule) : VSchedule × ℚ :=
  if 0 < s.vesting_period ∧ 0 < s.remaining_tokens then
    let cm := s.current_month + 1
    if (cm : ℚ) ≤ s.vesting_period then
      ({ s with current_month := cm
                remaining_tokens := s.remaining_tokens - s.vesting_amount_per_month },
        s.vesting_amount_per_month)
    else ({ s with current_month := cm }, 0)
  else (s, 0)

/-- Private-sales vesting (lines 173-180): every schedule is updated and the
released amounts are added to circulating supply. -/
def privateVestStep (st : SimState) : SimState :=
  { st with
      schedules := st.schedules.map fun s => (vestSchedule s).1
      circulating_supply :=
        st.circulating_supply + (st.schedules.map fun s => (vestSchedule s).2).sum }

/-- Testnet distribution (lines 183-191); note that the monthly release is
recomputed from the remaining balance every month. -/
def testnetStep (cfg : Config) (st : SimState) : SimState :=
  if 0 < st.testnet_development_tokens then
    let testnet_vesting_per_month :=
      st.testnet_development_tokens / (cfg.testnet_distribution_period * 12)
    let vesting_amount := min testnet_vesting_per_month st.testnet_development_tokens
    { st with
        testnet_development_tokens := st.testnet_development_tokens - vesting_amount
        circulating_supply := st.circulating_supply + vesting_amount }
  else st

/-- DAO treasury consumption (lines 194-198). -/
def daoStep (cfg : Config) (month : ℕ) (st : SimState) : SimState :=
  if cfg.dao_consumption_start_month ≤ (month : ℚ) ∧ 0 < st.dao_treasury then
    let dao_consumed := st.dao_treasury * cfg.dao_consumption_monthly_rate
    { st with dao_treasury := st.dao_treasury - dao_consumed
              circulating_supply := st.circulating_supply + dao_consumed }
  else st

/-- The single per-month supply clamp (lines 200-202). -/
def clampStep (st : SimState) : SimState :=
  if st.total_supply_current < st.circulating_supply then
    { st with circulating_supply := st.total_supply_current }
  else st

/-- The whole vesting phase of a month (builders, private sales, testnet, DAO,
then the clamp); the second component is `builders_sold`. -/
def vestPhase (cfg : Config) (month : ℕ) (st : SimState) : SimState × ℚ :=
  let p := buildersStep cfg month st
  (clampStep (daoStep cfg month (testnetStep cfg (privateVestStep p.1))), p.2)

/-- Seasonal factor lookup (lines 209-210): calendar month `(m-1) % 12 + 1`,
defaulting to 1 when the key is absent. -/
def seasonalFactor (cfg : Config) (month : ℕ) : ℚ :=
  (cfg.seasonality.lookup ((month - 1) % 12 + 1)).getD 1

/-- Number of missions of a month (lines 204-218).  `u_fluct` is the
underlying `random.random()` draw of the `random.uniform(-rf, rf)` call,
which CPython evaluates as `-rf + (rf - -rf) * u_fluct`. -/
def missionCount (cfg : Config) (expQ : ℚ → ℚ) (month : ℕ) (u_fluct : ℚ) : ℤ :=
  let exponent := cfg.growth_rate * ((month : ℚ) - cfg.inflection_point)
  let baseline_missions := cfg.carrying_capacity / (1 + expQ (-exponent))
  let adjusted_missions := baseline_missions * seasonalFactor cfg month
  let fluctuation :=
    -cfg.random_fluctuation +
      (cfg.random_fluctuation - -cfg.random_fluctuation) * u_fluct
  ratTrunc (adjusted_missions * (1 + fluctuation))

/-- `protocol_fee_poln` (lines 236-241): fee in tokens, floored at `1e-18`. -/
def protocolFeePoln (cfg : Config) (price : ℚ) : ℚ :=
  let protocol_fee_poln := cfg.project_cost * cfg.protocol_fee_rate / price
  if protocol_fee_poln < epsFee then epsFee else protocol_fee_poln

/-- The per-month flow quantities recorded besides the state. -/
structure MonthMetrics where
  tokens_staked : ℚ
  tokens_burnt : ℚ
  tokens_fee_distributed : ℚ
  tokens_fee_to_dao : ℚ
  net_token_demand : ℚ
  fellowship_sold : ℚ

/-- The all-zero metrics of a month with no missions (lines 221-227). -/
def zeroMetrics : MonthMetrics := ⟨0, 0, 0, 0, 0, 0⟩

/-- Mission processing, reward payout and halving check (lines 230-308). -/
def missionStep (cfg : Config) (num_missions : ℤ) (builders_sold : ℚ)
    (st : SimState) : SimState × MonthMetrics :=
  if 0 < num_missions then
    let num_successful := ratTrunc ((num_missions : ℚ) * cfg.mission_success_rate)
    let num_failed := num_missions - num_successful
    let fee := protocolFeePoln cfg st.token_price
    let staking_amount := fee * cfg.staking_rate
    let tokens_staked := staking_amount * (num_missions : ℚ)
    let tokens_burnt := staking_amount * (num_failed : ℚ)
    let tokens_fee_distributed := fee * (num_successful : ℚ)
    let tokens_fee_to_dao := fee * (num_failed : ℚ)
    let fellowship_sold := tokens_fee_distributed * cfg.fellowship_selling_percentage
    let rewards0 := st.reward_per_mission * (num_successful : ℚ)
    let pool1 := st.initiator_rewards_pool - rewards0
    let initiator_rewards_this_month := if pool1 < 0 then rewards0 + pool1 else rewards0
    let pool2 := if pool1 < 0 then 0 else pool1
    let initiator_sold := initiator_rewards_this_month * cfg.initiator_selling_percentage
    let net_token_demand :=
      fee * (num_missions : ℚ) - tokens_burnt - initiator_sold -
        fellowship_sold - builders_sold
    let halving_threshold := cfg.initial_pool / 2 ^ (st.current_halving_index + 1)
    let doHalve :=
      (st.current_halving_index : ℤ) < cfg.max_halvings ∧
        pool2 ≤ halving_threshold ∧
        cfg.minimum_reward_per_mission < st.reward_per_mission
    have : Decidable doHalve := instDecidableAnd
    ({ st with
        total_burnt_tokens := st.total_burnt_tokens + tokens_burnt
        total_supply_current := st.total_supply_current - tokens_burnt
        circulating_supply :=
          st.circulating_supply - tokens_burnt + tokens_fee_distributed +
            initiator_rewards_this_month
        dao_treasury := st.dao_treasury + tokens_fee_to_dao
        initiator_rewards_pool := pool2
        reward_per_mission :=
          if doHalve then
            (if st.reward_per_mission / 2 < cfg.minimum_reward_per_mission then
              cfg.minimum_reward_per_mission
            else st.reward_per_mission / 2)
          else st.reward_per_mission
        current_halving_index :=
          if doHalve then st.current_halving_index + 1
          else st.current_halving_index },
      { tokens_staked := tokens_staked
        tokens_burnt := tokens_burnt
        tokens_fee_distributed := tokens_fee_distributed
        tokens_fee_to_dao := tokens_fee_to_dao
        net_token_demand := net_token_demand
        fellowship_sold := fellowship_sold })
  else (st, zeroMetrics)

/-- Price formation (lines 310-321). -/
def priceStep (cfg : Config) (net_token_demand : ℚ) (st : SimState) : SimState :=
  if 0 < st.circulating_supply ∧ net_token_demand ≠ 0 then
    let price_change_percentage :=
      max (min (cfg.pec * (net_token_demand / st.circulating_supply) * st.current_msi)
            (1 / 5))
        (-(1 / 5))
    { st with token_price := st.token_price * (1 + price_change_percentage) }
  else st

/-- The monthly record appended at lines 324-343, built from the end-of-month
state and the month's metrics. -/
def mkRecord (month : ℕ) (num_missions : ℤ) (builders_sold : ℚ)
    (m : MonthMetrics) (st : SimState) : Record :=
  { month := month
    circulating_supply := st.circulating_supply
    total_supply_current := st.total_supply_current
    token_price := st.token_price
    tokens_staked := m.tokens_staked
    tokens_burnt := m.tokens_burnt
    tokens_fee_distributed := m.tokens_fee_distributed
    tokens_fee_to_dao := m.tokens_fee_to_dao
    dao_treasury := st.dao_treasury
    total_burnt_tokens := st.total_burnt_tokens
    market_sentiment_index := st.current_msi
    net_token_demand := m.net_token_demand
    missions := num_missions
    initiator_rewards_pool := st.initiator_rewards_pool
    reward_per_mission := st.reward_per_mission
    halving_index := st.current_halving_index
    builders_sold := builders_sold
    fellowship_sold := m.fellowship_sold }

/-- One iteration of the monthly loop (lines 144-343), given the values of the
two potential draws of the month. -/
def stepMonth (cfg : Config) (expQ : ℚ → ℚ) (month : ℕ)
    (rand_event u_fluct : ℚ) (st : SimState) : SimState × Record :=
  let st1 := msiStep cfg rand_event st
  let vp := vestPhase cfg month st1
  let num_missions := missionCount cfg expQ month u_fluct
  let ms := missionStep cfg num_missions vp.2 vp.1
  let st8 := priceStep cfg ms.2.net_token_demand ms.1
  (st8, mkRecord month num_missions vp.2 ms.2 st8)

/-- Number of `random.random()` draws a month consumes: two when the event
counter is zero (sentiment event plus fluctuation), one otherwise. -/
def drawCount (st : SimState) : ℕ :=
  if st.market_event_counter = 0 then 2 else 1

/-- The monthly loop: `rem` months remain, starting at month number `month`,
with the random stream `rng` consumed from position `cursor`. -/
def runAux (cfg : Config) (expQ : ℚ → ℚ) (rng : ℕ → ℚ) :
    ℕ → ℕ → ℕ → SimState → List Record
  | 0, _, _, _ => []
  | rem + 1, month, cursor, st =>
    let p := stepMonth cfg expQ month (rng cursor)
      (rng (cursor + (drawCount st - 1))) st
    p.2 :: runAux cfg expQ rng rem (month + 1) (cursor + drawCount st) p.1

/-- Final position of the random cursor after running the loop. -/
def finalCursor (cfg : Config) (expQ : ℚ → ℚ) (rng : ℕ → ℚ) :
    ℕ → ℕ → ℕ → SimState → ℕ
  | 0, _, cursor, _ => cursor
  | rem + 1, month, cursor, st =>
    finalCursor cfg expQ rng rem (month + 1) (cursor + drawCount st)
      (stepMonth cfg expQ month (rng cursor)
        (rng (cursor + (drawCount st - 1))) st).1

/-- The whole of `simulate`: `none` models the pre-loop `IndexError` of
line 110; otherwise the ordered list of monthly records for months
`1 .. simulation_months`. -/
def simulate (cfg : Config) (expQ : ℚ → ℚ) (rng : ℕ → ℚ)
    (simulation_months : ℕ) : Option (List Record) :=
  (initState cfg).map fun st => runAux cfg expQ rng simulation_months 1 0 st

/-- Total number of random draws a run consumes. -/
def simulateDraws (cfg : Config) (expQ : ℚ → ℚ) (rng : ℕ → ℚ)
    (simulation_months : ℕ) : ℕ :=
  match initState cfg with
  | none => 0
  | some st => finalCursor cfg expQ rng simulation_months 1 0 st

/-! ### Basic lemmas about the embedding -/

theorem ratTrunc_eq_floor {q : ℚ} (h : 0 ≤ q) : ratTrunc q = ⌊q⌋ := by
  rw [ratTrunc, Rat.floor_def, Int.tdiv_eq_ediv (Rat.num_nonneg.mpr h) (by positivity)]

theorem ratTrunc_nonneg {q : ℚ} (h : 0 ≤ q) : 0 ≤ ratTrunc q :=
  Int.tdiv_nonneg (Rat.num_nonneg.mpr h) (by positivity)

theorem ratTrunc_eq_zero {q : ℚ} (h0 : 0 ≤ q) (h1 : q < 1) : ratTrunc q = 0 := by
  rw [ratTrunc_eq_floor h0]
  exact Int.floor_eq_zero_iff.mpr ⟨h0, h1⟩

theorem ratTrunc_intCast (n : ℤ) : ratTrunc (n : ℚ) = n := by
  rw [ratTrunc, Rat.num_intCast, Rat.den_intCast]
  exact Int.tdiv_one n

theorem ratLog2Floor_nonneg {q : ℚ} (h : 1 ≤ q) : 0 ≤ ratLog2Floor q := by
  rw [ratLog2Floor, if_pos h]
  exact Int.natCast_nonneg _

/-! Frame lemmas: which state fields each sub-step leaves unchanged.  The
sentiment step touches only the counter and the sentiment value; the vesting
phase touches only supplies, treasury, pools and schedules; the mission step
does not touch the price, the counter or the sentiment; the price step touches
only the price. -/

section FrameLemmas

variable (cfg : Config) (month : ℕ) (u net bs : ℚ) (n : ℤ) (st : SimState)

@[simp] theorem msiStep_circ :
    (msiStep cfg u st).circulating_supply = st.circulating_supply := by
  unfold msiStep; split; (all_goals try split); (all_goals try split); all_goals rfl

@[simp] theorem msiStep_total :
    (msiStep cfg u st).total_supply_current = st.total_supply_current := by
  unfold msiStep; split; (all_goals try split); (all_goals try split); all_goals rfl

@[simp] theorem msiStep_builders :
    (msiStep cfg u st).builders_tokens = st.builders_tokens := by
  unfold msiStep; split; (all_goals try split); (all_goals try split); all_goals rfl

@[simp] theorem msiStep_dao :
    (msiStep cfg u st).dao_treasury = st.dao_treasury := by
  unfold msiStep; split; (all_goals try split); (all_goals try split); all_goals rfl

@[simp] theorem msiStep_testnet :
    (msiStep cfg u st).testnet_development_tokens = st.testnet_development_tokens := by
  unfold msiStep; split; (all_goals try split); (all_goals try split); all_goals rfl

@[simp] theorem msiStep_pool :
    (msiStep cfg u st).initiator_rewards_pool = st.initiator_rewards_pool := by
  unfold msiStep; split; (all_goals try split); (all_goals try split); all_goals rfl

@[simp] theorem msiStep_burnt :
    (msiStep cfg u st).total_burnt_tokens = st.total_burnt_tokens := by
  unfold msiStep; split; (all_goals try split); (all_goals try split); all_goals rfl

@[simp] theorem msiStep_price :
    (msiStep cfg u st).token_price = st.token_price := by
  unfold msiStep; split; (all_goals try split); (all_goals try split); all_goals rfl

@[simp] theorem msiStep_schedules :
    (msiStep cfg u st).schedules = st.schedules := by
  unfold msiStep; split; (all_goals try split); (all_goals try split); all_goals rfl

@[simp] theorem msiStep_reward :
    (msiStep cfg u st).reward_per_mission = st.reward_per_mission := by
  unfold msiStep; split; (all_goals try split); (all_goals try split); all_goals rfl

@[simp] theorem msiStep_hidx :
    (msiStep cfg u st).current_halving_index = st.current_halving_index := by
  unfold msiStep; split; (all_goals try split); (all_goals try split); all_goals rfl

@[simp] theorem buildersStep_total :
    (buildersStep cfg month st).1.total_supply_current = st.total_supply_current := by
  unfold buildersStep; split; all_goals rfl

@[simp] theorem buildersStep_dao :
    (buildersStep cfg month st).1.dao_treasury = st.dao_treasury := by
  unfold buildersStep; split; all_goals rfl

@[simp] theorem buildersStep_testnet :
    (buildersStep cfg month st).1.testnet_development_tokens =
      st.testnet_development_tokens := by
  unfold buildersStep; split; all_goals rfl

@[simp] theorem buildersStep_pool :
    (buildersStep cfg month st).1.initiator_rewards_pool = st.initiator_rewards_pool := by
  unfold buildersStep; split; all_goals rfl

@[simp] theorem buildersStep_burnt :
    (buildersStep cfg month st).1.total_burnt_tokens = st.total_burnt_tokens := by
  unfold buildersStep; split; all_goals rfl

@[simp] theorem buildersStep_price :
    (buildersStep cfg month st).1.token_price = st.token_price := by
  unfold buildersStep; split; all_goals rfl

@[simp] theorem buildersStep_schedules :
    (buildersStep cfg month st).1.schedules = st.schedules := by
  unfold buildersStep; split; all_goals rfl

@[simp] theorem buildersStep_reward :
    (buildersStep cfg month st).1.reward_per_mission = st.reward_per_mission := by
  unfold buildersStep; split; all_goals rfl

@[simp] theorem buildersStep_hidx :
    (buildersStep cfg month st).1.current_halving_index = st.current_halving_index := by
  unfold buildersStep; split; all_goals rfl

@[simp] theorem buildersStep_counter :
    (buildersStep cfg month st).1.market_event_counter = st.market_event_counter := by
  unfold buildersStep; split; all_goals rfl

@[simp] theorem buildersStep_msi :
    (buildersStep cfg month st).1.current_msi = st.current_msi := by
  unfold buildersStep; split; all_goals rfl

@[simp] theorem privateVestStep_total :
    (privateVestStep st).total_supply_current = st.total_supply_current := rfl

@[simp] theorem privateVestStep_builders :
    (privateVestStep st).builders_tokens = st.builders_tokens := rfl

@[simp] theorem privateVestStep_dao :
    (privateVestStep st).dao_treasury = st.dao_treasury := rfl

@[simp] theorem privateVestStep_testnet :
    (privateVestStep st).testnet_development_tokens = st.testnet_development_tokens := rfl

@[simp] theorem privateVestStep_pool :
    (privateVestStep st).initiator_rewards_pool = st.initiator_rewards_pool := rfl

@[simp] theorem privateVestStep_burnt :
    (privateVestStep st).total_burnt_tokens = st.total_burnt_tokens := rfl

@[simp] theorem privateVestStep_price :
    (privateVestStep st).token_price = st.token_price := rfl

@[simp] theorem privateVestStep_reward :
    (privateVestStep st).reward_per_mission = st.reward_per_mission := rfl

@[simp] theorem privateVestStep_hidx :
    (privateVestStep st).current_halving_index = st.current_halving_index := rfl

@[simp] theorem privateVestStep_counter :
    (privateVestStep st).market_event_counter = st.market_event_counter := rfl

@[simp] theorem privateVestStep_msi :
    (privateVestStep st).current_msi = st.current_msi := rfl

@[simp] theorem testnetStep_total :
    (testnetStep cfg st).total_supply_current = st.total_supply_current := by
  unfold testnetStep; split; all_goals rfl

@[simp] theorem testnetStep_builders :
    (testnetStep cfg st).builders_tokens = st.builders_tokens := by
  unfold testnetStep; split; all_goals rfl

@[simp] theorem testnetStep_dao :
    (testnetStep cfg st).dao_treasury = st.dao_treasury := by
  unfold testnetStep; split; all_goals rfl

@[simp] theorem testnetStep_pool :
    (testnetStep cfg st).initiator_rewards_pool = st.initiator_rewards_pool := by
  unfold testnetStep; split; all_goals rfl

@[simp] theorem testnetStep_burnt :
    (testnetStep cfg st).total_burnt_tokens = st.total_burnt_tokens := by
  unfold testnetStep; split; all_goals rfl

@[simp] theorem testnetStep_price :
    (testnetStep cfg st).token_price = st.token_price := by
  unfold testnetStep; split; all_goals rfl

@[simp] theorem testnetStep_schedules :
    (testnetStep cfg st).schedules = st.schedules := by
  unfold testnetStep; split; all_goals rfl

@[simp] theorem testnetStep_reward :
    (testnetStep cfg st).reward_per_mission = st.reward_per_mission := by
  unfold testnetStep; split; all_goals rfl

@[simp] theorem testnetStep_hidx :
    (testnetStep cfg st).current_halving_index = st.current_halving_index := by
  unfold testnetStep; split; all_goals rfl

@[simp] theorem testnetStep_counter :
    (testnetStep cfg st).market_event_counter = st.market_event_counter := by
  unfold testnetStep; split; all_goals rfl

@[simp] theorem testnetStep_msi :
    (testnetStep cfg st).current_msi = st.current_msi := by
  unfold testnetStep; split; all_goals rfl

@[simp] theorem daoStep_total :
    (daoStep cfg month st).total_supply_current = st.total_supply_current := by
  unfold daoStep; split; all_goals rfl

@[simp] theorem daoStep_builders :
    (daoStep cfg month st).builders_tokens = st.builders_tokens := by
  unfold daoStep; split; all_goals rfl

@[simp] theorem daoStep_testnet :
    (daoStep cfg month st).testnet_development_tokens = st.testnet_development_tokens := by
  unfold daoStep; split; all_goals rfl

@[simp] theorem daoStep_pool :
    (daoStep cfg month st).initiator_rewards_pool = st.initiator_rewards_pool := by
  unfold daoStep; split; all_goals rfl

@[simp] theorem daoStep_burnt :
    (daoStep cfg month st).total_burnt_tokens = st.total_burnt_tokens := by
  unfold daoStep; split; all_goals rfl

@[simp] theorem daoStep_price :
    (daoStep cfg month st).token_price = st.token_price := by
  unfold daoStep; split; all_goals rfl

@[simp] theorem daoStep_schedules :
    (daoStep cfg month st).schedules = st.schedules := by
  unfold daoStep; split; all_goals rfl

@[simp] theorem daoStep_reward :
    (daoStep cfg month st).reward_per_mission = st.reward_per_mission := by
  unfold daoStep; split; all_goals rfl

@[simp] theorem daoStep_hidx :
    (daoStep cfg month st).current_halving_index = st.current_halving_index := by
  unfold daoStep; split; all_goals rfl

@[simp] theorem daoStep_counter :
    (daoStep cfg month st).market_event_counter = st.market_event_counter := by
  unfold daoStep; split; all_goals rfl

@[simp] theorem daoStep_msi :
    (daoStep cfg month st).current_msi = st.current_msi := by
  unfold daoStep; split; all_goals rfl

@[simp] theorem clampStep_total :
    (clampStep st).total_supply_current = st.total_supply_current := by
  unfold clampStep; split; all_goals rfl

@[simp] theorem clampStep_builders :
    (clampStep st).builders_tokens = st.builders_tokens := by
  unfold clampStep; split; all_goals rfl

@[simp] theorem clampStep_dao :
    (clampStep st).dao_treasury = st.dao_treasury := by
  unfold clampStep; split; all_goals rfl

@[simp] theorem clampStep_testnet :
    (clampStep st).testnet_development_tokens = st.testnet_development_tokens := by
  unfold clampStep; split; all_goals rfl

@[simp] theorem clampStep_pool :
    (clampStep st).initiator_rewards_pool = st.initiator_rewards_pool := by
  unfold clampStep; split; all_goals rfl

@[simp] theorem clampStep_burnt :
    (clampStep st).total_burnt_tokens = st.total_burnt_tokens := by
  unfold clampStep; split; all_goals rfl

@[simp] theorem clampStep_price :
    (clampStep st).token_price = st.token_price := by
  unfold clampStep; split; all_goals rfl

@[simp] theorem clampStep_schedules :
    (clampStep st).schedules = st.schedules := by
  unfold clampStep; split; all_goals rfl

@[simp] theorem clampStep_reward :
    (clampStep st).reward_per_mission = st.reward_per_mission := by
  unfold clampStep; split; all_goals rfl

@[simp] theorem clampStep_hidx :
    (clampStep st).current_halving_index = st.current_halving_index := by
  unfold clampStep; split; all_goals rfl

@[simp] theorem clampStep_counter :
    (clampStep st).market_event_counter = st.market_event_counter := by
  unfold clampStep; split; all_goals rfl

@[simp] theorem clampStep_msi :
    (clampStep st).current_msi = st.current_msi := by
  unfold clampStep; split; all_goals rfl

@[simp] theorem vestPhase_total :
    (vestPhase cfg month st).1.total_supply_current = st.total_supply_current := by
  simp [vestPhase]

@[simp] theorem vestPhase_pool :
    (vestPhase cfg month st).1.initiator_rewards_pool = st.initiator_rewards_pool := by
  simp [vestPhase]

@[simp] theorem vestPhase_burnt :
    (vestPhase cfg month st).1.total_burnt_tokens = st.total_burnt_tokens := by
  simp [vestPhase]

@[simp] theorem vestPhase_price :
    (vestPhase cfg month st).1.token_price = st.token_price := by
  simp [vestPhase]

@[simp] theorem vestPhase_reward :
    (vestPhase cfg month st).1.reward_per_mission = st.reward_per_mission := by
  simp [vestPhase]

@[simp] theorem vestPhase_hidx :
    (vestPhase cfg month st).1.current_halving_index = st.current_halving_index := by
  simp [vestPhase]

@[simp] theorem vestPhase_counter :
    (vestPhase cfg month st).1.market_event_counter = st.market_event_counter := by
  simp [vestPhase]

@[simp] theorem vestPhase_msi :
    (vestPhase cfg month st).1.current_msi = st.current_msi := by
  simp [vestPhase]

@[simp] theorem missionStep_price :
    (missionStep cfg n bs st).1.token_price = st.token_price := by
  unfold missionStep; split; all_goals rfl

@[simp] theorem missionStep_builders :
    (missionStep cfg n bs st).1.builders_tokens = st.builders_tokens := by
  unfold missionStep; split; all_goals rfl

@[simp] theorem missionStep_testnet :
    (missionStep cfg n bs st).1.testnet_development_tokens =
      st.testnet_development_tokens := by
  unfold missionStep; split; all_goals rfl

@[simp] theorem missionStep_schedules :
    (missionStep cfg n bs st).1.schedules = st.schedules := by
  unfold missionStep; split; all_goals rfl

@[simp] theorem missionStep_counter :
    (missionStep cfg n bs st).1.market_event_counter = st.market_event_counter := by
  unfold missionStep; split; all_goals rfl

@[simp] theorem missionStep_msi :
    (missionStep cfg n bs st).1.current_msi = st.current_msi := by
  unfold missionStep; split; all_goals rfl

@[simp] theorem priceStep_circ :
    (priceStep cfg net st).circulating_supply = st.circulating_supply := by
  unfold priceStep; split; all_goals rfl

@[simp] theorem priceStep_total :
    (priceStep cfg net st).total_supply_current = st.total_supply_current := by
  unfold priceStep; split; all_goals rfl

@[simp] theorem priceStep_builders :
    (priceStep cfg net st).builders_tokens = st.builders_tokens := by
  unfold priceStep; split; all_goals rfl

@[simp] theorem priceStep_dao :
    (priceStep cfg net st).dao_treasury = st.dao_treasury := by
  unfold priceStep; split; all_goals rfl

@[simp] theorem priceStep_testnet :
    (priceStep cfg net st).testnet_development_tokens = st.testnet_development_tokens := by
  unfold priceStep; split; all_goals rfl

@[simp] theorem priceStep_pool :
    (priceStep cfg net st).initiator_rewards_pool = st.initiator_rewards_pool := by
  unfold priceStep; split; all_goals rfl

@[simp] theorem priceStep_burnt :
    (priceStep cfg net st).total_burnt_tokens = st.total_burnt_tokens := by
  unfold priceStep; split; all_goals rfl

@[simp] theorem priceStep_schedules :
    (priceStep cfg net st).schedules = st.schedules := by
  unfold priceStep; split; all_goals rfl

@[simp] theorem priceStep_reward :
    (priceStep cfg net st).reward_per_mission = st.reward_per_mission := by
  unfold priceStep; split; all_goals rfl

@[simp] theorem priceStep_hidx :
    (priceStep cfg net st).current_halving_index = st.current_halving_index := by
  unfold priceStep; split; all_goals rfl

@[simp] theorem priceStep_counter :
    (priceStep cfg net st).market_event_counter = st.market_event_counter := by
  unfold priceStep; split; all_goals rfl

@[simp] theorem priceStep_msi :
    (priceStep cfg net st).current_msi = st.current_msi := by
  unfold priceStep; split; all_goals rfl

end FrameLemmas

/-- The record of a month copies the end-of-month state verbatim. -/
theorem stepMonth_record_state (cfg : Config) (expQ : ℚ → ℚ) (month : ℕ)
    (uE uF : ℚ) (st : SimState) :
    (stepMonth cfg expQ month uE uF st).2.circulating_supply =
      (stepMonth cfg expQ month uE uF st).1.circulating_supply ∧
    (stepMonth cfg expQ month uE uF st).2.total_supply_current =
      (stepMonth cfg expQ month uE uF st).1.total_supply_current ∧
    (stepMonth cfg expQ month uE uF st).2.token_price =
      (stepMonth cfg expQ month uE uF st).1.token_price ∧
    (stepMonth cfg expQ month uE uF st).2.dao_treasury =
      (stepMonth cfg expQ month uE uF st).1.dao_treasury ∧
    (stepMonth cfg expQ month uE uF st).2.total_burnt_tokens =
      (stepMonth cfg expQ month uE uF st).1.total_burnt_tokens ∧
    (stepMonth cfg expQ month uE uF st).2.initiator_rewards_pool =
      (stepMonth cfg expQ month uE uF st).1.initiator_rewards_pool ∧
    (stepMonth cfg expQ month uE uF st).2.reward_per_mission =
      (stepMonth cfg expQ month uE uF st).1.reward_per_mission ∧
    (stepMonth cfg expQ month uE uF st).2.halving_index =
      (stepMonth cfg expQ month uE uF st).1.current_halving_index :=
  ⟨rfl, rfl, rfl, rfl, rfl, rfl, rfl, rfl⟩

theorem ratTrunc_neg (q : ℚ) : ratTrunc (-q) = -ratTrunc q := by
  simp [ratTrunc, Int.neg_tdiv]

theorem ratTrunc_eq_of_nonneg {q : ℚ} {n : ℤ} (h0 : 0 ≤ n) (h1 : (n : ℚ) ≤ q)
    (h2 : q < n + 1) : ratTrunc q = n := by
  have hq : 0 ≤ q := le_trans (by exact_mod_cast h0) h1
  rw [ratTrunc_eq_floor hq, Int.floor_eq_iff]
  exact ⟨h1, h2⟩

/-- Generic invariant lemma for the monthly loop: a state predicate preserved
by `stepMonth` that forces a record predicate on each produced record holds of
every record of the run. -/
theorem runAux_inv (cfg : Config) (expQ : ℚ → ℚ) (rng : ℕ → ℚ)
    (P : SimState → Prop) (Q : Record → Prop)
    (hstep : ∀ month uE uF st, P st → P (stepMonth cfg expQ month uE uF st).1)
    (hrec : ∀ month uE uF st, P st → Q (stepMonth cfg expQ month uE uF st).2) :
    ∀ rem month cursor st, P st →
      ∀ r ∈ runAux cfg expQ rng rem month cursor st, Q r := by
  intro rem
  induction rem with
  | zero =>
    intro month cursor st _ r hr
    simp [runAux] at hr
  | succ k ih =>
    intro month cursor st hP r hr
    rw [runAux] at hr
    rcases List.mem_cons.mp hr with h | h
    · exact h ▸ hrec month (rng cursor) (rng (cursor + (drawCount st - 1))) st hP
    · exact ih (month + 1) (cursor + drawCount st) _
        (hstep month (rng cursor) (rng (cursor + (drawCount st - 1))) st hP) r h

/-! ### Concrete instances used by witnesses and counterexamples

`expOne` stands for the exponential when every queried exponent is `0`
(`growth_rate = 0` in all concrete configurations below, so the code computes
`np.exp(-0.0) = 1.0` exactly); `rngHalf` is the constant stream of draws
`0.5`, and with `random_fluctuation = 0` the fluctuation of every month is
exactly `0`. -/

def expOne : ℚ → ℚ := fun _ => 1

def rngHalf : ℕ → ℚ := fun _ => 1 / 2

/-- A small, fully concrete configuration: supply 1000, one token allocated
to the initiator pool, three empty private-sale tranches, no seasonality, no
fluctuation, logistic plateau at 10 missions per month. -/
def cfgBase : Config where
  total_supply := 1000
  initial_price := 1
  project_cost := 100
  protocol_fee_rate := 1
  staking_rate := 1 / 2
  mission_success_rate := 1 / 2
  pec := 1
  msi_bull := 2
  msi_bear := 1 / 2
  msi_normal := 1
  bull_market_probability := 0
  bear_market_probability := 0
  market_event_duration := 3
  random_fluctuation := 0
  carrying_capacity := 10
  growth_rate := 0
  inflection_point := 0
  seasonality := []
  dist_builders := 0
  dist_dao_treasury := 0
  dist_airdrops := 0
  dist_initiator_rewards := 1 / 1000
  dist_testnet := 0
  initiator_selling_percentage := 1 / 10
  dao_annual_consumption_rate := 0
  dao_consumption_start_month := 1000
  fellowship_selling_percentage := 1 / 10
  builders_selling_percentage := 1 / 10
  private_sales := [⟨0, 0⟩, ⟨0, 0⟩, ⟨0, 0⟩]
  initiator_rewards_monthly := 1
  minimum_reward_per_mission := 1
  testnet_distribution_period := 1
  builders_lockup_period := 0
  builders_vesting_period := 0

/-- The state `initState cfgBase` produces. -/
def stBase : SimState where
  circulating_supply := 999
  total_supply_current := 1000
  builders_tokens := 0
  dao_treasury := 0
  testnet_development_tokens := 0
  initiator_rewards_pool := 1
  total_burnt_tokens := 0
  token_price := 1
  schedules := [⟨0, 0, 0, 0⟩, ⟨0, 0, 0, 0⟩, ⟨0, 0, 0, 0⟩]
  reward_per_mission := 1
  current_halving_index := 0
  market_event_counter := 0
  current_msi := 1

theorem initState_cfgBase : initState cfgBase = some stBase := by
  simp [initState, cfgBase, stBase, List.get?, privateSaleVestingTokens,
    zeroVestingTokens, mkVSchedule, Config.builders_tokens0, Config.dao_treasury0,
    Config.airdrops_tokens, Config.initial_pool, Config.testnet_tokens0]
  norm_num

theorem missionCount_cfgBase : missionCount cfgBase expOne 1 (1 / 2) = 5 := by
  simp [missionCount, seasonalFactor, cfgBase, expOne, List.lookup]
  norm_num
  exact ratTrunc_eq_of_nonneg (by norm_num) (by norm_num) (by norm_num)

/-- All missions succeed, no staking: fees inflate circulating supply past the
total supply. -/
def cfgC1 : Config := { cfgBase with mission_success_rate := 1, staking_rate := 0 }

/-- C1 (counterexample): the invariant `0 ≤ circulating_supply ≤ total_supply`
does NOT hold of the recorded monthly values.  In the concrete configuration
`cfgC1` (all missions succeed, zero staking rate, `growth_rate = 0` so the
abstract exponential is exactly the real one), the very first monthly record
has `circulating_supply = 1500 > 1000 = total_supply`: the fellowship fee and
initiator reward payouts are added to circulating supply after the single
per-month clamp, with no further clamping. -/
theorem C1_counterexample : ∃ r ∈ (simulate cfgC1 expOne rngHalf 1).getD [],
    r.total_supply_current < r.circulating_supply := by
  have h0 : initState cfgC1 = some stBase := by
    simp [initState, cfgC1, cfgBase, stBase, List.get?, privateSaleVestingTokens,
      zeroVestingTokens, mkVSchedule, Config.builders_tokens0, Config.dao_treasury0,
      Config.airdrops_tokens, Config.initial_pool, Config.testnet_tokens0]
    norm_num
  have hm : missionCount cfgC1 expOne 1 (1 / 2) = 5 := by
    simp [missionCount, seasonalFactor, cfgC1, cfgBase, expOne, List.lookup]
    norm_num
    exact ratTrunc_eq_of_nonneg (by norm_num) (by norm_num) (by norm_num)
  have ht : ratTrunc ((5 : ℚ)) = 5 :=
    ratTrunc_eq_of_nonneg (by norm_num) (by norm_num) (by norm_num)
  have hsv : vestPhase cfgC1 1 (msiStep cfgC1 (1 / 2) stBase) = (stBase, 0) := by
    simp [vestPhase, msiStep, buildersStep, privateVestStep, vestSchedule,
      testnetStep, daoStep, clampStep, cfgC1, cfgBase, stBase]
    norm_num
  have hmax : Config.max_halvings cfgC1 = 0 := by
    simp [Config.max_halvings, Config.initial_pool, cfgC1, cfgBase, ratLog2Floor,
      natLog2, natLog2Aux]
  have hms : missionStep cfgC1 5 0 stBase =
      ({ stBase with circulating_supply := 1500, initiator_rewards_pool := 0 },
        { tokens_staked := 0
          tokens_burnt := 0
          tokens_fee_distributed := 500
          tokens_fee_to_dao := 0
          net_token_demand := 4499 / 10
          fellowship_sold := 50 }) := by
    simp [missionStep, protocolFeePoln, epsFee, cfgC1, cfgBase, stBase, ht, hmax]
    norm_num
  have hps : priceStep cfgC1 (4499 / 10)
      ({ stBase with
          circulating_supply := 1500
          initiator_rewards_pool := 0 }) =
      ({ stBase with
          circulating_supply := 1500
          initiator_rewards_pool := 0
          token_price := 6 / 5 }) := by
    simp [priceStep, cfgC1, cfgBase, stBase]
    norm_num
  have hdc : drawCount stBase = 2 := by norm_num [drawCount, stBase]
  have hstep : stepMonth cfgC1 expOne 1 (1 / 2) (1 / 2) stBase =
      (({ stBase with
          circulating_supply := 1500
          initiator_rewards_pool := 0
          token_price := 6 / 5 }),
        mkRecord 1 5 0
          { tokens_staked := 0
            tokens_burnt := 0
            tokens_fee_distributed := 500
            tokens_fee_to_dao := 0
            net_token_demand := 4499 / 10
            fellowship_sold := 50 }
          ({ stBase with
            circulating_supply := 1500
            initiator_rewards_pool := 0
            token_price := 6 / 5 })) := by
    simp only [stepMonth, hm, hsv, hms, hps]
  simp only [simulate, h0, Option.map_some', Option.getD_some, runAux, hdc, rngHalf,
    hstep]
  simp [mkRecord, stBase]
  norm_num

theorem clampStep_le (st : SimState) :
    (clampStep st).circulating_supply ≤ (clampStep st).total_supply_current := by
  unfold clampStep
  split
  · exact le_refl _
  · next h => exact le_of_not_lt h

/-- C1 (amended): the clamp of lines 200-202 guarantees
`circulating_supply ≤ total_supply_current` at its own program point — the end
of the vesting phase of each month, for every configuration and state — but
this is the only clamp; the recorded end-of-month state need not satisfy
`0 ≤ circulating_supply ≤ total_supply`, because the mission fee/burn step,
the fellowship fee payout and the initiator reward payout adjust circulating
supply afterwards. -/
theorem C1_clamped_upper_bound (cfg : Config) (month : ℕ) (st : SimState) :
    (vestPhase cfg month st).1.circulating_supply ≤
      (vestPhase cfg month st).1.total_supply_current :=
  clampStep_le _

/-! C2: the month-0 conservation identity. -/

theorem remaining_map_mkVSchedule (sales : List PrivateSale) :
    ((sales.map mkVSchedule).map VSchedule.remaining_tokens).sum =
      (sales.map PrivateSale.tokens_sold).sum := by
  rw [List.map_map]
  rfl

theorem vestingTokens_of_sound (sales : List PrivateSale)
    (h : ∀ s ∈ sales, 0 < s.vesting_period ∨ s.tokens_sold = 0) :
    privateSaleVestingTokens sales = (sales.map PrivateSale.tokens_sold).sum ∧
      zeroVestingTokens sales = 0 := by
  induction sales with
  | nil => simp [privateSaleVestingTokens, zeroVestingTokens]
  | cons s rest ih =>
    have hs := h s (List.mem_cons_self s rest)
    have hrest := ih fun x hx => h x (List.mem_cons_of_mem s hx)
    rw [privateSaleVestingTokens, zeroVestingTokens] at *
    simp only [List.map_cons, List.sum_cons]
    rcases hs with hpos | hzero
    · rw [if_pos hpos, if_neg (by positivity), hrest.1, hrest.2]
      simp
    · rw [hzero]
      rw [hrest.1, hrest.2]
      simp
  -- done

/-- The conserved quantity of the month-0 conservation claim: circulating
supply plus all non-circulating pools plus the sum of remaining private-sale
vesting tokens. -/
def conservationSum (cfg : Config) (st : SimState) : ℚ :=
  st.circulating_supply + st.builders_tokens + st.dao_treasury +
    cfg.airdrops_tokens + (st.schedules.map VSchedule.remaining_tokens).sum +
    st.initiator_rewards_pool + st.testnet_development_tokens

/-- Tranche 0 has zero vesting period but 100 tokens: those 100 tokens are
counted both in circulating supply and in the schedule's remaining tokens. -/
def cfgC2 : Config := { cfgBase with private_sales := [⟨100, 0⟩, ⟨0, 0⟩, ⟨0, 0⟩] }

/-- C2 (counterexample): the month-0 conservation identity fails whenever a
private-sale tranche has a zero vesting period and a nonzero amount of tokens:
such a tranche is added to circulating supply immediately AND keeps its full
`remaining_tokens` forever.  For `cfgC2` the sum is 1200 against a configured
total supply of 1000. -/
theorem C2_counterexample :
    (initState cfgC2).map (conservationSum cfgC2) = some 1200 ∧
      cfgC2.total_supply = 1000 := by
  constructor
  · have h0 : initState cfgC2 = some
        ({ stBase with
            circulating_supply := 1099
            schedules := [⟨100, 0, 0, 0⟩, ⟨0, 0, 0, 0⟩, ⟨0, 0, 0, 0⟩] }) := by
      simp [initState, cfgC2, cfgBase, stBase, List.get?, privateSaleVestingTokens,
        zeroVestingTokens, mkVSchedule, Config.builders_tokens0, Config.dao_treasury0,
        Config.airdrops_tokens, Config.initial_pool, Config.testnet_tokens0]
      norm_num
    rw [h0]
    simp [conservationSum, stBase, Config.airdrops_tokens, cfgC2, cfgBase]
    norm_num
  · simp [cfgC2, cfgBase]

/-- C2 (amended): the month-0 conservation identity
`circulating_supply + builders_tokens + dao_treasury + airdrops_tokens +
Σ remaining + initiator_pool + testnet_tokens = total_supply` holds exactly,
in exact arithmetic, for every configuration in which each private-sale
tranche either has a positive vesting period or holds no tokens (the
counterexample shows it fails otherwise). -/
theorem C2_conservation (cfg : Config) (st : SimState)
    (hinit : initState cfg = some st)
    (hz : ∀ s ∈ cfg.private_sales, 0 < s.vesting_period ∨ s.tokens_sold = 0) :
    conservationSum cfg st = cfg.total_supply := by
  obtain ⟨hv, h0⟩ := vestingTokens_of_sound cfg.private_sales hz
  rcases hget : cfg.private_sales.get? 2 with _ | sale2
  · rw [initState, hget] at hinit
    exact absurd hinit (by simp)
  · rw [initState, hget] at hinit
    have hst := (Option.some.injEq _ _).mp hinit
    rw [conservationSum, ← hst]
    simp only [remaining_map_mkVSchedule, hv, h0]
    ring

/-- C2 (witness): for `cfgBase` every tranche is empty, and the conserved sum
is exactly the configured total supply 1000. -/
theorem C2_conservation_witness :
    conservationSum cfgBase stBase = cfgBase.total_supply :=
  C2_conservation cfgBase stBase initState_cfgBase
    (by intro s hs; simp [cfgBase] at hs; subst hs; right; rfl)

/-! C9: the `private_sales[2]` access of line 110. -/

/-- A single private-sale tranche: `private_sales[2]` raises `IndexError`. -/
def cfgC9 : Config := { cfgBase with private_sales := [⟨0, 0⟩] }

/-- C9: the initial running total supply is the configured total supply minus
the airdrops allocation minus `tokens_sold` of specifically the third
private-sale tranche (index 2), whatever the tranche vesting periods are; and
for every configuration whose `private_sales` list has fewer than three
entries, `simulate` fails (with the `IndexError` of line 110, modelled as
`none`) before producing any output. -/
theorem C9_index_two (cfg : Config) (expQ : ℚ → ℚ) (rng : ℕ → ℚ) (months : ℕ) :
    (cfg.private_sales.length < 3 → simulate cfg expQ rng months = none) ∧
    (∀ sale2, cfg.private_sales.get? 2 = some sale2 →
      ∃ st, initState cfg = some st ∧
        st.total_supply_current =
          cfg.total_supply - (cfg.airdrops_tokens + sale2.tokens_sold)) := by
  constructor
  · intro hlen
    have hget : cfg.private_sales.get? 2 = none :=
      List.get?_eq_none.mpr (by omega)
    rw [simulate, initState, hget]
    rfl
  · intro sale2 hget
    rw [initState, hget]
    exact ⟨_, rfl, rfl⟩

/-- C9 (witness): a one-tranche configuration yields no output at all, and for
`cfgBase` (three tranches) the initial running total supply is the configured
total minus airdrops minus tranche 2's tokens. -/
theorem C9_index_two_witness :
    simulate cfgC9 expOne rngHalf 5 = none ∧
      ∃ st, initState cfgBase = some st ∧
        st.total_supply_current =
          cfgBase.total_supply - (cfgBase.airdrops_tokens + (0 : ℚ)) := by
  constructor
  · exact (C9_index_two cfgC9 expOne rngHalf 5).1 (by simp [cfgC9, cfgBase])
  · exact (C9_index_two cfgBase expOne rngHalf 5).2 ⟨0, 0⟩
      (by simp [cfgBase, List.get?])

/-! C10: months with no missions change nothing after the vesting clamp. -/

/-- In a month whose mission count is not positive, the mission and price
steps are skipped entirely: the month's pair is the post-vesting state with a
record of zero metrics. -/
theorem stepMonth_no_mission (cfg : Config) (expQ : ℚ → ℚ) (month : ℕ)
    (uE uF : ℚ) (st : SimState)
    (h : missionCount cfg expQ month uF ≤ 0) :
    stepMonth cfg expQ month uE uF st =
      ((vestPhase cfg month (msiStep cfg uE st)).1,
        mkRecord month (missionCount cfg expQ month uF)
          (vestPhase cfg month (msiStep cfg uE st)).2 zeroMetrics
          (vestPhase cfg month (msiStep cfg uE st)).1) := by
  have hn : ¬ 0 < missionCount cfg expQ month uF := not_lt.mpr h
  have hms : missionStep cfg (missionCount cfg expQ month uF)
      (vestPhase cfg month (msiStep cfg uE st)).2
      (vestPhase cfg month (msiStep cfg uE st)).1 =
      ((vestPhase cfg month (msiStep cfg uE st)).1, zeroMetrics) := by
    rw [missionStep, if_neg hn]
  have hps : ∀ s : SimState, priceStep cfg zeroMetrics.net_token_demand s = s := by
    intro s
    rw [priceStep, if_neg]
    simp [zeroMetrics]
  simp only [stepMonth, hms, hps]

/-- C10: if the computed mission count of a month is ≤ 0, the end-of-month
state is exactly the state at the end of the vesting/clamp phase — the
mission, fee, reward-halving and price steps are skipped (in particular no
halving happens, whatever the pool level), the price is unchanged, and the
monthly record shows 0 for `tokens_staked`, `tokens_burnt`,
`tokens_fee_distributed`, `tokens_fee_to_dao` and `net_token_demand` while
`dao_treasury`, `total_supply`, `total_burnt_tokens`,
`initiator_rewards_pool`, `reward_per_mission`, `halving_index` and
`token_price` keep their post-vesting values. -/
theorem C10_no_mission_frame (cfg : Config) (expQ : ℚ → ℚ) (month : ℕ)
    (uE uF : ℚ) (st : SimState)
    (h : missionCount cfg expQ month uF ≤ 0) :
    (stepMonth cfg expQ month uE uF st).1 =
      (vestPhase cfg month (msiStep cfg uE st)).1 ∧
    (stepMonth cfg expQ month uE uF st).2.tokens_staked = 0 ∧
    (stepMonth cfg expQ month uE uF st).2.tokens_burnt = 0 ∧
    (stepMonth cfg expQ month uE uF st).2.tokens_fee_distributed = 0 ∧
    (stepMonth cfg expQ month uE uF st).2.tokens_fee_to_dao = 0 ∧
    (stepMonth cfg expQ month uE uF st).2.net_token_demand = 0 ∧
    (stepMonth cfg expQ month uE uF st).2.dao_treasury =
      (vestPhase cfg month (msiStep cfg uE st)).1.dao_treasury ∧
    (stepMonth cfg expQ month uE uF st).2.total_supply_current =
      (vestPhase cfg month (msiStep cfg uE st)).1.total_supply_current ∧
    (stepMonth cfg expQ month uE uF st).2.total_burnt_tokens =
      (vestPhase cfg month (msiStep cfg uE st)).1.total_burnt_tokens ∧
    (stepMonth cfg expQ month uE uF st).2.initiator_rewards_pool =
      (vestPhase cfg month (msiStep cfg uE st)).1.initiator_rewards_pool ∧
    (stepMonth cfg expQ month uE uF st).2.reward_per_mission =
      (vestPhase cfg month (msiStep cfg uE st)).1.reward_per_mission ∧
    (stepMonth cfg expQ month uE uF st).2.halving_index =
      (vestPhase cfg month (msiStep cfg uE st)).1.current_halving_index ∧
    (stepMonth cfg expQ month uE uF st).2.token_price =
      (vestPhase cfg month (msiStep cfg uE st)).1.token_price := by
  rw [stepMonth_no_mission cfg expQ month uE uF st h]
  simp [mkRecord, zeroMetrics]

/-- A configuration whose carrying capacity is zero: every month computes
zero missions. -/
def cfgC10 : Config := { cfgBase with carrying_capacity := 0 }

/-- C10 (witness): with `cfgC10` the first month computes 0 missions and the
end-of-month state coincides with the post-vesting state. -/
theorem C10_no_mission_frame_witness :
    missionCount cfgC10 expOne 1 (1 / 2) ≤ 0 ∧
    (stepMonth cfgC10 expOne 1 (1 / 2) (1 / 2) stBase).1 =
      (vestPhase cfgC10 1 (msiStep cfgC10 (1 / 2) stBase)).1 ∧
    (stepMonth cfgC10 expOne 1 (1 / 2) (1 / 2) stBase).2.net_token_demand = 0 := by
  have hmc : missionCount cfgC10 expOne 1 (1 / 2) = 0 := by
    simp [missionCount, seasonalFactor, cfgC10, cfgBase, expOne, List.lookup]
    norm_num [ratTrunc]
  have h := C10_no_mission_frame cfgC10 expOne 1 (1 / 2) (1 / 2) stBase (le_of_eq hmc)
  exact ⟨le_of_eq hmc, h.1, h.2.2.2.2.2.1⟩

/-! C6: the aggregate mission/fee computations of a month with missions. -/

/-- C6: in any month with mission count `n > 0` (and a non-negative success
rate, so that Python's `int` truncation is the floor), with
`ns = ⌊n × success_rate⌋` successes and `n - ns` failures and
`fee = max(project_cost × protocol_fee_rate / token_price, 1e-18)` (the token
price being the one at the start of the month, unchanged through the vesting
phase): `tokens_staked = fee × staking_rate × n`,
`tokens_burnt = fee × staking_rate × (n - ns)`,
`tokens_fee_distributed = fee × ns`, `tokens_fee_to_dao = fee × (n - ns)`;
the DAO treasury grows by exactly `tokens_fee_to_dao`, `total_burnt_tokens`
grows by and total supply shrinks by exactly `tokens_burnt`, and circulating
supply changes by `-tokens_burnt + tokens_fee_distributed + payout` where
`payout = min(pool, reward × ns)` (so the fee to the DAO is not added to
circulating supply).  With `success_rate = 1` the burn is exactly 0, and with
`success_rate = 0` the distributed fee is exactly 0 and the whole protocol
fee of the month routes to the DAO. -/
theorem C6_mission_fee_processor (cfg : Config) (expQ : ℚ → ℚ) (month : ℕ)
    (uE uF : ℚ) (st : SimState) (n ns : ℤ) (fee : ℚ) (sv fin : SimState)
    (r : Record)
    (hdefn : n = missionCount cfg expQ month uF)
    (hdefns : ns = ⌊(n : ℚ) * cfg.mission_success_rate⌋)
    (hdeffee : fee = protocolFeePoln cfg st.token_price)
    (hdefsv : sv = (vestPhase cfg month (msiStep cfg uE st)).1)
    (hdeffin : fin = (stepMonth cfg expQ month uE uF st).1)
    (hdefr : r = (stepMonth cfg expQ month uE uF st).2)
    (hn : 0 < n) (hr : 0 ≤ cfg.mission_success_rate) :
    r.missions = n ∧
    r.tokens_staked = fee * cfg.staking_rate * (n : ℚ) ∧
    r.tokens_burnt = fee * cfg.staking_rate * ((n - ns : ℤ) : ℚ) ∧
    r.tokens_fee_distributed = fee * (ns : ℚ) ∧
    r.tokens_fee_to_dao = fee * ((n - ns : ℤ) : ℚ) ∧
    fin.dao_treasury = sv.dao_treasury + fee * ((n - ns : ℤ) : ℚ) ∧
    fin.total_burnt_tokens =
      sv.total_burnt_tokens + fee * cfg.staking_rate * ((n - ns : ℤ) : ℚ) ∧
    fin.total_supply_current =
      sv.total_supply_current - fee * cfg.staking_rate * ((n - ns : ℤ) : ℚ) ∧
    fin.circulating_supply =
      sv.circulating_supply - fee * cfg.staking_rate * ((n - ns : ℤ) : ℚ) +
        fee * (ns : ℚ) +
        min sv.initiator_rewards_pool (sv.reward_per_mission * (ns : ℚ)) ∧
    sv.token_price = st.token_price ∧
    (cfg.mission_success_rate = 1 → r.tokens_burnt = 0) ∧
    (cfg.mission_success_rate = 0 → r.tokens_fee_distributed = 0 ∧
      r.tokens_fee_to_dao = fee * (n : ℚ)) := by
  subst hdefn hdefns hdeffee hdefsv hdeffin hdefr
  have hnq : (0 : ℚ) ≤ (missionCount cfg expQ month uF : ℚ) := by
    exact_mod_cast hn.le
  have hfl : ratTrunc ((missionCount cfg expQ month uF : ℚ) *
      cfg.mission_success_rate) =
      ⌊(missionCount cfg expQ month uF : ℚ) * cfg.mission_success_rate⌋ :=
    ratTrunc_eq_floor (mul_nonneg hnq hr)
  simp only [stepMonth, mkRecord, missionStep]
  rw [if_pos hn]
  simp only [hfl, vestPhase_price, msiStep_price, priceStep_dao, priceStep_burnt,
    priceStep_total, priceStep_circ, true_and, and_true]
  refine ⟨?_, ?_, ?_⟩
  · -- circulating supply: the clamped payout is `min pool (reward * ns)`
    set sv := (vestPhase cfg month (msiStep cfg uE st)).1
    set x := sv.reward_per_mission *
      (⌊(missionCount cfg expQ month uF : ℚ) * cfg.mission_success_rate⌋ : ℚ)
    by_cases hp : sv.initiator_rewards_pool - x < 0
    · rw [if_pos hp, min_eq_left (by linarith)]
      ring
    · rw [if_neg hp, min_eq_right (by linarith)]
  · intro h1
    rw [h1]
    simp
  · intro h0
    rw [h0]
    norm_num

/-- C6 (witness): in `cfgBase` the first month has 5 missions, fee 100 per
mission, 2 successes and 3 failures; the recorded staking and burn amounts
follow the aggregate formulas. -/
theorem C6_mission_fee_processor_witness :
    (stepMonth cfgBase expOne 1 (1 / 2) (1 / 2) stBase).2.tokens_staked =
      100 * cfgBase.staking_rate * ((5 : ℤ) : ℚ) ∧
    (stepMonth cfgBase expOne 1 (1 / 2) (1 / 2) stBase).2.tokens_burnt =
      100 * cfgBase.staking_rate * ((5 - 2 : ℤ) : ℚ) ∧
    (stepMonth cfgBase expOne 1 (1 / 2) (1 / 2) stBase).2.tokens_fee_distributed =
      100 * ((2 : ℤ) : ℚ) := by
  have h := C6_mission_fee_processor cfgBase expOne 1 (1 / 2) (1 / 2) stBase 5 2 100
    ((vestPhase cfgBase 1 (msiStep cfgBase (1 / 2) stBase)).1)
    ((stepMonth cfgBase expOne 1 (1 / 2) (1 / 2) stBase).1)
    ((stepMonth cfgBase expOne 1 (1 / 2) (1 / 2) stBase).2)
    missionCount_cfgBase.symm
    (by norm_num [cfgBase])
    (by norm_num [protocolFeePoln, epsFee, cfgBase, stBase])
    rfl rfl rfl (by norm_num) (by norm_num [cfgBase])
  exact ⟨h.2.1, h.2.2.1, h.2.2.2.1⟩

/-! C5: price formation. -/

/-- The per-month price relation: the new price is positive and within a
relative 20% of the old one. -/
def priceOK (p q : ℚ) : Prop := 0 < q ∧ |q / p - 1| ≤ 1 / 5

theorem priceStep_ok (cfg : Config) (net : ℚ) (s : SimState)
    (h : 0 < s.token_price) :
    priceOK s.token_price (priceStep cfg net s).token_price := by
  rw [priceStep]
  split
  · set c := max (min (cfg.pec * (net / s.circulating_supply) * s.current_msi)
      (1 / 5)) (-(1 / 5)) with hc
    have hc1 : c ≤ 1 / 5 := max_le (min_le_right _ _) (by norm_num)
    have hc2 : -(1 / 5) ≤ c := le_max_right _ _
    have hfac : (0 : ℚ) < 1 + c := by linarith
    constructor
    · exact mul_pos h hfac
    · have hdiv : s.token_price * (1 + c) / s.token_price = 1 + c :=
        mul_div_cancel_left₀ _ h.ne'
      show |s.token_price * (1 + c) / s.token_price - 1| ≤ 1 / 5
      rw [hdiv, add_sub_cancel_left]
      exact abs_le.mpr ⟨hc2, hc1⟩
  · exact ⟨h, by rw [div_self h.ne']; simp⟩

theorem stepMonth_price_ok (cfg : Config) (expQ : ℚ → ℚ) (month : ℕ)
    (uE uF : ℚ) (st : SimState) (h : 0 < st.token_price) :
    priceOK st.token_price (stepMonth cfg expQ month uE uF st).1.token_price := by
  have hpre : (missionStep cfg (missionCount cfg expQ month uF)
      (vestPhase cfg month (msiStep cfg uE st)).2
      (vestPhase cfg month (msiStep cfg uE st)).1).1.token_price =
      st.token_price := by simp
  have := priceStep_ok cfg
    (missionStep cfg (missionCount cfg expQ month uF)
      (vestPhase cfg month (msiStep cfg uE st)).2
      (vestPhase cfg month (msiStep cfg uE st)).1).2.net_token_demand
    (missionStep cfg (missionCount cfg expQ month uF)
      (vestPhase cfg month (msiStep cfg uE st)).2
      (vestPhase cfg month (msiStep cfg uE st)).1).1
    (by rw [hpre]; exact h)
  rw [hpre] at this
  exact this

theorem runAux_price_chain (cfg : Config) (expQ : ℚ → ℚ) (rng : ℕ → ℚ) :
    ∀ rem month cursor st, 0 < st.token_price →
      List.Chain priceOK st.token_price
        ((runAux cfg expQ rng rem month cursor st).map Record.token_price) := by
  intro rem
  induction rem with
  | zero => intro month cursor st _; simp [runAux]
  | succ k ih =>
    intro month cursor st h
    rw [runAux]
    simp only [List.map_cons]
    refine List.Chain.cons ?_ ?_
    · exact stepMonth_price_ok cfg expQ month (rng cursor)
        (rng (cursor + (drawCount st - 1))) st h
    · exact ih (month + 1) (cursor + drawCount st) _
        (stepMonth_price_ok cfg expQ month (rng cursor)
          (rng (cursor + (drawCount st - 1))) st h).1

theorem initState_fields (cfg : Config) (st : SimState)
    (h : initState cfg = some st) :
    st.initiator_rewards_pool = cfg.initial_pool ∧
    st.reward_per_mission = cfg.initiator_rewards_monthly ∧
    st.current_halving_index = 0 ∧
    st.market_event_counter = 0 := by
  rcases hget : cfg.private_sales.get? 2 with _ | sale2
  · rw [initState, hget] at h
    exact absurd h (by simp)
  · rw [initState, hget] at h
    have := (Option.some.injEq _ _).mp h
    rw [← this]
    exact ⟨rfl, rfl, rfl, rfl⟩

theorem initState_price (cfg : Config) (st : SimState)
    (h : initState cfg = some st) : st.token_price = cfg.initial_price := by
  rcases hget : cfg.private_sales.get? 2 with _ | sale2
  · rw [initState, hget] at h
    exact absurd h (by simp)
  · rw [initState, hget] at h
    have := (Option.some.injEq _ _).mp h
    rw [← this]

/-- C5: (a) the price step multiplies the price by
`1 + clamp(pec × (net_token_demand / circulating_supply) × msi, −1/5, 1/5)`
when `circulating_supply > 0` and `net_token_demand ≠ 0`, and leaves it
exactly unchanged otherwise; (b) consequently, for a positive initial price,
every recorded price is strictly positive and each consecutive pair of prices
(starting from the initial price) satisfies `|p_new / p_old − 1| ≤ 1/5`
(the code's cap `0.2`). -/
theorem C5_price_formation (cfg : Config) (expQ : ℚ → ℚ) (rng : ℕ → ℚ)
    (months : ℕ) (rs : List Record)
    (hrun : simulate cfg expQ rng months = some rs)
    (hpos : 0 < cfg.initial_price) :
    (∀ (net : ℚ) (s : SimState), (priceStep cfg net s).token_price =
        if 0 < s.circulating_supply ∧ net ≠ 0 then
          s.token_price *
            (1 + max (min (cfg.pec * (net / s.circulating_supply) * s.current_msi)
              (1 / 5)) (-(1 / 5)))
        else s.token_price) ∧
    List.Chain priceOK cfg.initial_price (rs.map Record.token_price) ∧
    (∀ r ∈ rs, 0 < r.token_price) := by
  rcases hinit : initState cfg with _ | st0
  · rw [simulate, hinit] at hrun
    exact absurd hrun (by simp)
  · rw [simulate, hinit, Option.map_some'] at hrun
    have hrs : rs = runAux cfg expQ rng months 1 0 st0 :=
      ((Option.some.injEq _ _).mp hrun).symm
    have hp0 : 0 < st0.token_price := by
      rw [initState_price cfg st0 hinit]
      exact hpos
    refine ⟨?_, ?_, ?_⟩
    · intro net s
      rw [priceStep]
      split
      · rfl
      · rfl
    · rw [hrs, ← initState_price cfg st0 hinit]
      exact runAux_price_chain cfg expQ rng months 1 0 st0 hp0
    · rw [hrs]
      exact runAux_inv cfg expQ rng (fun s => 0 < s.token_price)
        (fun r => 0 < r.token_price)
        (fun month uE uF s hs => (stepMonth_price_ok cfg expQ month uE uF s hs).1)
        (fun month uE uF s hs => (stepMonth_price_ok cfg expQ month uE uF s hs).1)
        months 1 0 st0 hp0

/-- C5 (witness): the run of `cfgBase` over one month, whose initial price 1
is positive, satisfies the chained price bound and price positivity. -/
theorem C5_price_formation_witness :
    List.Chain priceOK cfgBase.initial_price
      ((runAux cfgBase expOne rngHalf 1 1 0 stBase).map Record.token_price) ∧
    ∀ r ∈ runAux cfgBase expOne rngHalf 1 1 0 stBase, 0 < r.token_price := by
  have h := C5_price_formation cfgBase expOne rngHalf 1
    (runAux cfgBase expOne rngHalf 1 1 0 stBase)
    (by rw [simulate, initState_cfgBase, Option.map_some'])
    (by norm_num [cfgBase])
  exact ⟨h.2.1, h.2.2⟩

/-! C4: pool non-negativity, reward floor, and the payout clamp. -/

/-- A configuration whose initial monthly reward (1/2) is below the
configured minimum reward per mission (1). -/
def cfgC4 : Config :=
  { cfgBase with initiator_rewards_monthly := 1 / 2, carrying_capacity := 0 }

/-- C4 (counterexample): `reward_per_mission ≥ minimum_reward_per_mission`
fails when the configured initial monthly reward is below the minimum: the
reward starts below the floor and the halving controller never touches it
(halving requires `reward > minimum`).  In `cfgC4` (non-negative pool 1,
positive minimum 1, positive reward parameters) the first record shows
`reward_per_mission = 1/2 < 1`. -/
theorem C4_counterexample : ∃ r ∈ (simulate cfgC4 expOne rngHalf 1).getD [],
    r.reward_per_mission < cfgC4.minimum_reward_per_mission := by
  have h0 : initState cfgC4 = some ({ stBase with reward_per_mission := 1 / 2 }) := by
    simp [initState, cfgC4, cfgBase, stBase, List.get?, privateSaleVestingTokens,
      zeroVestingTokens, mkVSchedule, Config.builders_tokens0, Config.dao_treasury0,
      Config.airdrops_tokens, Config.initial_pool, Config.testnet_tokens0]
    norm_num
  have hmc : missionCount cfgC4 expOne 1 (1 / 2) = 0 := by
    simp [missionCount, seasonalFactor, cfgC4, cfgBase, expOne, List.lookup]
    norm_num [ratTrunc]
  have hdc : drawCount ({ stBase with reward_per_mission := (1 / 2 : ℚ) }) = 2 := by
    norm_num [drawCount, stBase]
  have hstep := stepMonth_no_mission cfgC4 expOne 1 (1 / 2) (1 / 2)
    ({ stBase with reward_per_mission := 1 / 2 }) (le_of_eq hmc)
  simp only [simulate, h0, Option.map_some', Option.getD_some, runAux, hdc, rngHalf,
    hstep]
  simp [mkRecord, cfgC4, cfgBase, stBase]
  norm_num

theorem missionStep_pos_pool (cfg : Config) (n : ℤ) (bs : ℚ) (s : SimState)
    (hn : 0 < n) :
    (missionStep cfg n bs s).1.initiator_rewards_pool =
      if s.initiator_rewards_pool - s.reward_per_mission *
          (ratTrunc ((n : ℚ) * cfg.mission_success_rate) : ℚ) < 0 then 0
      else s.initiator_rewards_pool - s.reward_per_mission *
          (ratTrunc ((n : ℚ) * cfg.mission_success_rate) : ℚ) := by
  rw [missionStep, if_pos hn]

theorem missionStep_pos_reward (cfg : Config) (n : ℤ) (bs : ℚ) (s : SimState)
    (hn : 0 < n) :
    (missionStep cfg n bs s).1.reward_per_mission =
      if ((s.current_halving_index : ℤ) < cfg.max_halvings ∧
          (if s.initiator_rewards_pool - s.reward_per_mission *
              (ratTrunc ((n : ℚ) * cfg.mission_success_rate) : ℚ) < 0 then 0
            else s.initiator_rewards_pool - s.reward_per_mission *
              (ratTrunc ((n : ℚ) * cfg.mission_success_rate) : ℚ)) ≤
            cfg.initial_pool / 2 ^ (s.current_halving_index + 1) ∧
          cfg.minimum_reward_per_mission < s.reward_per_mission) then
        (if s.reward_per_mission / 2 < cfg.minimum_reward_per_mission then
          cfg.minimum_reward_per_mission
        else s.reward_per_mission / 2)
      else s.reward_per_mission := by
  rw [missionStep, if_pos hn]

theorem missionStep_pos_hidx (cfg : Config) (n : ℤ) (bs : ℚ) (s : SimState)
    (hn : 0 < n) :
    (missionStep cfg n bs s).1.current_halving_index =
      if ((s.current_halving_index : ℤ) < cfg.max_halvings ∧
          (if s.initiator_rewards_pool - s.reward_per_mission *
              (ratTrunc ((n : ℚ) * cfg.mission_success_rate) : ℚ) < 0 then 0
            else s.initiator_rewards_pool - s.reward_per_mission *
              (ratTrunc ((n : ℚ) * cfg.mission_success_rate) : ℚ)) ≤
            cfg.initial_pool / 2 ^ (s.current_halving_index + 1) ∧
          cfg.minimum_reward_per_mission < s.reward_per_mission) then
        s.current_halving_index + 1
      else s.current_halving_index := by
  rw [missionStep, if_pos hn]

theorem missionStep_pool_reward_inv (cfg : Config) (n : ℤ) (bs : ℚ)
    (s : SimState)
    (h : 0 ≤ s.initiator_rewards_pool ∧
      cfg.minimum_reward_per_mission ≤ s.reward_per_mission) :
    0 ≤ (missionStep cfg n bs s).1.initiator_rewards_pool ∧
      cfg.minimum_reward_per_mission ≤
        (missionStep cfg n bs s).1.reward_per_mission := by
  by_cases hn : 0 < n
  · constructor
    · rw [missionStep_pos_pool cfg n bs s hn]
      split
      · exact le_refl 0
      · next hp => exact not_lt.mp hp
    · rw [missionStep_pos_reward cfg n bs s hn]
      generalize (if s.initiator_rewards_pool - s.reward_per_mission *
          (ratTrunc ((n : ℚ) * cfg.mission_success_rate) : ℚ) < 0 then (0 : ℚ)
        else s.initiator_rewards_pool - s.reward_per_mission *
          (ratTrunc ((n : ℚ) * cfg.mission_success_rate) : ℚ)) = pool2
      split
      · split
        · exact le_refl _
        · next hlt => exact not_lt.mp hlt
      · exact h.2
  · rw [missionStep, if_neg hn]
    exact h

/-- C4 (amended): provided the initial pool allocation is non-negative and
the configured initial monthly reward is at least the configured minimum
(the counterexample shows the floor fails otherwise), every monthly record
satisfies `initiator_rewards_pool ≥ 0` and
`reward_per_mission ≥ minimum_reward_per_mission`; and whenever the nominal
payout `reward × num_successful` of a month with missions exceeds the pool,
the pool is set to exactly 0 and the actual payout is the whole remaining
pool — it is the clamped payout that is added to circulating supply and that
forms the initiator sell-off base inside net token demand. -/
theorem C4_pool_reward_clamp (cfg : Config) (expQ : ℚ → ℚ) (rng : ℕ → ℚ)
    (months : ℕ) (rs : List Record)
    (hrun : simulate cfg expQ rng months = some rs)
    (hpool : 0 ≤ cfg.initial_pool)
    (hmin : cfg.minimum_reward_per_mission ≤ cfg.initiator_rewards_monthly) :
    (∀ r ∈ rs, 0 ≤ r.initiator_rewards_pool ∧
      cfg.minimum_reward_per_mission ≤ r.reward_per_mission) ∧
    (∀ (n ns : ℤ) (bs fee : ℚ) (s : SimState),
      ns = ratTrunc ((n : ℚ) * cfg.mission_success_rate) →
      fee = protocolFeePoln cfg s.token_price →
      0 < n →
      s.initiator_rewards_pool < s.reward_per_mission * (ns : ℚ) →
      (missionStep cfg n bs s).1.initiator_rewards_pool = 0 ∧
      (missionStep cfg n bs s).1.circulating_supply =
        s.circulating_supply - fee * cfg.staking_rate * ((n - ns : ℤ) : ℚ) +
          fee * (ns : ℚ) + s.initiator_rewards_pool ∧
      (missionStep cfg n bs s).2.net_token_demand =
        fee * (n : ℚ) - fee * cfg.staking_rate * ((n - ns : ℤ) : ℚ) -
          s.initiator_rewards_pool * cfg.initiator_selling_percentage -
          fee * (ns : ℚ) * cfg.fellowship_selling_percentage - bs) := by
  constructor
  · rcases hinit : initState cfg with _ | st0
    · rw [simulate, hinit] at hrun
      exact absurd hrun (by simp)
    · rw [simulate, hinit, Option.map_some'] at hrun
      have hrs : rs = runAux cfg expQ rng months 1 0 st0 :=
        ((Option.some.injEq _ _).mp hrun).symm
      obtain ⟨hp0, hr0, _, _⟩ := initState_fields cfg st0 hinit
      rw [hrs]
      refine runAux_inv cfg expQ rng
        (fun s => 0 ≤ s.initiator_rewards_pool ∧
          cfg.minimum_reward_per_mission ≤ s.reward_per_mission)
        (fun r => 0 ≤ r.initiator_rewards_pool ∧
          cfg.minimum_reward_per_mission ≤ r.reward_per_mission)
        ?_ ?_ months 1 0 st0 ⟨hp0 ▸ hpool, hr0 ▸ hmin⟩
      · intro month uE uF s hs
        have hvest : 0 ≤ (vestPhase cfg month (msiStep cfg uE s)).1.initiator_rewards_pool ∧
            cfg.minimum_reward_per_mission ≤
              (vestPhase cfg month (msiStep cfg uE s)).1.reward_per_mission := by
          simpa using hs
        have := missionStep_pool_reward_inv cfg (missionCount cfg expQ month uF)
          (vestPhase cfg month (msiStep cfg uE s)).2
          (vestPhase cfg month (msiStep cfg uE s)).1 hvest
        simpa [stepMonth] using this
      · intro month uE uF s hs
        have hvest : 0 ≤ (vestPhase cfg month (msiStep cfg uE s)).1.initiator_rewards_pool ∧
            cfg.minimum_reward_per_mission ≤
              (vestPhase cfg month (msiStep cfg uE s)).1.reward_per_mission := by
          simpa using hs
        have := missionStep_pool_reward_inv cfg (missionCount cfg expQ month uF)
          (vestPhase cfg month (msiStep cfg uE s)).2
          (vestPhase cfg month (msiStep cfg uE s)).1 hvest
        simpa [stepMonth, mkRecord] using this
  · intro n ns bs fee s hns hfee hn hshort
    subst hns hfee
    have hneg : s.initiator_rewards_pool - s.reward_per_mission *
        ((ratTrunc ((n : ℚ) * cfg.mission_success_rate) : ℤ) : ℚ) < 0 :=
      sub_neg.mpr hshort
    rw [missionStep, if_pos hn]
    refine ⟨?_, ?_, ?_⟩
    · show (if _ < (0 : ℚ) then (0 : ℚ) else _) = 0
      rw [if_pos hneg]
    · show s.circulating_supply - _ + _ + (if _ < (0 : ℚ) then _ + _ else _) = _
      rw [if_pos hneg]
      push_cast
      ring
    · show _ - _ - (if _ < (0 : ℚ) then _ + _ else _) * _ - _ - _ = _
      rw [if_pos hneg]
      push_cast
      ring

/-- C4 (witness):`cfgBase` has non-negative pool 1 and initial reward equal
to the minimum; its one-month run keeps the pool non-negative and the reward
at or above the minimum. -/
theorem C4_pool_reward_clamp_witness :
    ∃ r ∈ runAux cfgBase expOne rngHalf 1 1 0 stBase,
      0 ≤ r.initiator_rewards_pool ∧
        cfgBase.minimum_reward_per_mission ≤ r.reward_per_mission := by
  have h := C4_pool_reward_clamp cfgBase expOne rngHalf 1
    (runAux cfgBase expOne rngHalf 1 1 0 stBase)
    (by rw [simulate, initState_cfgBase, Option.map_some'])
    (by norm_num [Config.initial_pool, cfgBase])
    (by norm_num [cfgBase])
  have hmem : (stepMonth cfgBase expOne 1 (rngHalf 0)
      (rngHalf (0 + (drawCount stBase - 1))) stBase).2 ∈
      runAux cfgBase expOne rngHalf 1 1 0 stBase := by
    rw [runAux]
    exact List.mem_cons_self _ _
  exact ⟨_, hmem, h.1 _ hmem⟩

/-! C3: halving correctness. -/

theorem ite_neg_zero_eq_max (a : ℚ) : (if a < 0 then (0 : ℚ) else a) = max a 0 := by
  split
  · next hlt => exact (max_eq_right hlt.le).symm
  · next hge => exact (max_eq_left (not_lt.mp hge)).symm

/-- The state invariant of the halving controller: before any halving the
reward is the configured monthly reward, after `k ≥ 1` halvings it is
`max (monthly / 2^k) minimum`, and the halving index never exceeds
`max_halvings`. -/
def HalvingInv (cfg : Config) (s : SimState) : Prop :=
  (s.current_halving_index = 0 →
    s.reward_per_mission = cfg.initiator_rewards_monthly) ∧
  (1 ≤ s.current_halving_index →
    s.reward_per_mission =
      max (cfg.initiator_rewards_monthly / 2 ^ s.current_halving_index)
        cfg.minimum_reward_per_mission) ∧
  (s.current_halving_index : ℤ) ≤ cfg.max_halvings

theorem missionStep_halving_inv (cfg : Config) (n : ℤ) (bs : ℚ) (s : SimState)
    (hP : HalvingInv cfg s) : HalvingInv cfg (missionStep cfg n bs s).1 := by
  by_cases hn : 0 < n
  · rw [HalvingInv, missionStep_pos_reward cfg n bs s hn,
      missionStep_pos_hidx cfg n bs s hn]
    generalize (if s.initiator_rewards_pool - s.reward_per_mission *
        (ratTrunc ((n : ℚ) * cfg.mission_success_rate) : ℚ) < 0 then (0 : ℚ)
      else s.initiator_rewards_pool - s.reward_per_mission *
        (ratTrunc ((n : ℚ) * cfg.mission_success_rate) : ℚ)) = pool2
    split
    · next hd =>
      have hre : s.reward_per_mission =
          cfg.initiator_rewards_monthly / 2 ^ s.current_halving_index := by
        rcases Nat.eq_zero_or_pos s.current_halving_index with h0 | h1
        · rw [hP.1 h0, h0, pow_zero, div_one]
        · have hmax := hP.2.1 h1
          by_cases hcmp : cfg.initiator_rewards_monthly /
              2 ^ s.current_halving_index ≤ cfg.minimum_reward_per_mission
          · exfalso
            rw [hmax, max_eq_right hcmp] at hd
            exact lt_irrefl _ hd.2.2
          · rw [hmax, max_eq_left (le_of_lt (not_le.mp hcmp))]
      have hdiv : cfg.initiator_rewards_monthly / 2 ^ s.current_halving_index / 2 =
          cfg.initiator_rewards_monthly / 2 ^ (s.current_halving_index + 1) := by
        rw [div_div, pow_succ]
      refine ⟨?_, ?_, ?_⟩
      · intro habs
        exact absurd habs (Nat.succ_ne_zero _)
      · intro _
        split
        · next hf =>
          rw [hre, hdiv] at hf
          exact (max_eq_right hf.le).symm
        · next hf =>
          rw [hre, hdiv] at hf
          rw [hre, hdiv]
          exact (max_eq_left (not_lt.mp hf)).symm
      · have := hd.1
        push_cast
        omega
    · next hd => exact hP
  · rw [missionStep, if_neg hn]
    exact hP

theorem stepMonth_halving_inv (cfg : Config) (expQ : ℚ → ℚ) (month : ℕ)
    (uE uF : ℚ) (s : SimState) (hP : HalvingInv cfg s) :
    HalvingInv cfg (stepMonth cfg expQ month uE uF s).1 := by
  have hvest : HalvingInv cfg (vestPhase cfg month (msiStep cfg uE s)).1 := by
    rw [HalvingInv] at *
    simpa using hP
  have := missionStep_halving_inv cfg (missionCount cfg expQ month uF)
    (vestPhase cfg month (msiStep cfg uE s)).2
    (vestPhase cfg month (msiStep cfg uE s)).1 hvest
  rw [HalvingInv] at *
  simpa [stepMonth] using this

/-- A configuration with positive pool (1/2) and positive minimum reward (1)
whose pool is below the minimum: `max_halvings = ⌊log2 (1/2)⌋ = −1` while
the halving index is 0 from the start. -/
def cfgC3 : Config :=
  { cfgBase with dist_initiator_rewards := 1 / 2000, carrying_capacity := 0 }

/-- C3 (counterexample): the bound `halving_index ≤ ⌊log2(initial_pool /
minimum_reward)⌋` fails for configurations with positive pool and positive
minimum reward whenever the pool is below the minimum reward: in `cfgC3`
(pool 1/2, minimum 1) `max_halvings = −1` but the recorded halving index of
month 1 is 0. -/
theorem C3_counterexample :
    0 < cfgC3.initial_pool ∧ 0 < cfgC3.minimum_reward_per_mission ∧
    ∃ r ∈ (simulate cfgC3 expOne rngHalf 1).getD [],
      cfgC3.max_halvings < (r.halving_index : ℤ) := by
  refine ⟨by norm_num [Config.initial_pool, cfgC3, cfgBase],
    by norm_num [cfgC3, cfgBase], ?_⟩
  have h0 : initState cfgC3 = some
      ({ stBase with
          circulating_supply := 1999 / 2
          initiator_rewards_pool := 1 / 2 }) := by
    simp [initState, cfgC3, cfgBase, stBase, List.get?, privateSaleVestingTokens,
      zeroVestingTokens, mkVSchedule, Config.builders_tokens0, Config.dao_treasury0,
      Config.airdrops_tokens, Config.initial_pool, Config.testnet_tokens0]
    norm_num
  have hmc : missionCount cfgC3 expOne 1 (1 / 2) = 0 := by
    simp [missionCount, seasonalFactor, cfgC3, cfgBase, expOne, List.lookup]
    norm_num [ratTrunc]
  have hdc : drawCount ({ stBase with
      circulating_supply := (1999 / 2 : ℚ)
      initiator_rewards_pool := (1 / 2 : ℚ) }) = 2 := by
    norm_num [drawCount, stBase]
  have hstep := stepMonth_no_mission cfgC3 expOne 1 (1 / 2) (1 / 2)
    ({ stBase with
        circulating_supply := 1999 / 2
        initiator_rewards_pool := 1 / 2 }) (le_of_eq hmc)
  have hmax : cfgC3.max_halvings = -1 := by
    norm_num [Config.max_halvings, Config.initial_pool, cfgC3, cfgBase, ratLog2Floor,
      ratCeilLog2, ratCeilLog2Aux]
  simp only [simulate, h0, Option.map_some', Option.getD_some, runAux, hdc, rngHalf,
    hstep, hmax]
  simp [mkRecord, stBase]

/-- C3 (amended): for every configuration with positive minimum reward whose
initial pool is at least the minimum reward (the counterexample shows the
bound fails when the pool is smaller): every monthly record satisfies —
before any halving the reward per mission is the configured initial monthly
reward; after the `k`-th halving (`k ≥ 1`) it is exactly
`max(initial_monthly_reward / 2^k, minimum_reward)`; and the halving index
never exceeds `max_halvings = ⌊log2(initial_pool / minimum_reward)⌋`.
Moreover a halving occurs in a month (the halving index increments) exactly
when the month had missions, the index is below `max_halvings`, the
post-payout pool is at most `initial_pool / 2^(index+1)`, and the reward is
still above the minimum. -/
theorem C3_halving_schedule (cfg : Config) (expQ : ℚ → ℚ) (rng : ℕ → ℚ)
    (months : ℕ) (rs : List Record)
    (hrun : simulate cfg expQ rng months = some rs)
    (hminpos : 0 < cfg.minimum_reward_per_mission)
    (hminpool : cfg.minimum_reward_per_mission ≤ cfg.initial_pool) :
    (∀ r ∈ rs,
      (r.halving_index = 0 →
        r.reward_per_mission = cfg.initiator_rewards_monthly) ∧
      (1 ≤ r.halving_index →
        r.reward_per_mission =
          max (cfg.initiator_rewards_monthly / 2 ^ r.halving_index)
            cfg.minimum_reward_per_mission) ∧
      (r.halving_index : ℤ) ≤ cfg.max_halvings) ∧
    (∀ (n : ℤ) (bs : ℚ) (s : SimState),
      (missionStep cfg n bs s).1.current_halving_index =
        s.current_halving_index + 1 ↔
      (0 < n ∧ (s.current_halving_index : ℤ) < cfg.max_halvings ∧
        max (s.initiator_rewards_pool - s.reward_per_mission *
          (ratTrunc ((n : ℚ) * cfg.mission_success_rate) : ℚ)) 0 ≤
          cfg.initial_pool / 2 ^ (s.current_halving_index + 1) ∧
        cfg.minimum_reward_per_mission < s.reward_per_mission)) := by
  constructor
  · rcases hinit : initState cfg with _ | st0
    · rw [simulate, hinit] at hrun
      exact absurd hrun (by simp)
    · rw [simulate, hinit, Option.map_some'] at hrun
      have hrs : rs = runAux cfg expQ rng months 1 0 st0 :=
        ((Option.some.injEq _ _).mp hrun).symm
      obtain ⟨hp0, hr0, hh0, _⟩ := initState_fields cfg st0 hinit
      have hP0 : HalvingInv cfg st0 := by
        refine ⟨fun _ => hr0, fun habs => ?_, ?_⟩
        · omega
        · rw [hh0]
          exact ratLog2Floor_nonneg ((one_le_div hminpos).mpr hminpool)
      rw [hrs]
      exact runAux_inv cfg expQ rng (HalvingInv cfg)
        (fun r =>
          (r.halving_index = 0 →
            r.reward_per_mission = cfg.initiator_rewards_monthly) ∧
          (1 ≤ r.halving_index →
            r.reward_per_mission =
              max (cfg.initiator_rewards_monthly / 2 ^ r.halving_index)
                cfg.minimum_reward_per_mission) ∧
          (r.halving_index : ℤ) ≤ cfg.max_halvings)
        (fun month uE uF s hs => stepMonth_halving_inv cfg expQ month uE uF s hs)
        (fun month uE uF s hs => stepMonth_halving_inv cfg expQ month uE uF s hs)
        months 1 0 st0 hP0
  · intro n bs s
    by_cases hn : 0 < n
    · rw [missionStep_pos_hidx cfg n bs s hn, ite_neg_zero_eq_max]
      constructor
      · intro he
        split at he
        · next hd => exact ⟨hn, hd⟩
        · next => omega
      · rintro ⟨_, hd⟩
        rw [if_pos hd]
    · rw [missionStep, if_neg hn]
      constructor
      · intro he
        have heq : s.current_halving_index = s.current_halving_index + 1 := he
        omega
      · rintro ⟨h0, _⟩
        exact absurd h0 hn

/-- C3 (witness): `cfgBase` has minimum reward 1 ≤ pool 1; its one-month run
satisfies the reward/halving-index invariant. -/
theorem C3_halving_schedule_witness :
    ∃ r ∈ runAux cfgBase expOne rngHalf 1 1 0 stBase,
      (r.halving_index = 0 →
        r.reward_per_mission = cfgBase.initiator_rewards_monthly) ∧
      (1 ≤ r.halving_index →
        r.reward_per_mission =
          max (cfgBase.initiator_rewards_monthly / 2 ^ r.halving_index)
            cfgBase.minimum_reward_per_mission) ∧
      (r.halving_index : ℤ) ≤ cfgBase.max_halvings := by
  have h := C3_halving_schedule cfgBase expOne rngHalf 1
    (runAux cfgBase expOne rngHalf 1 1 0 stBase)
    (by rw [simulate, initState_cfgBase, Option.map_some'])
    (by norm_num [cfgBase])
    (by norm_num [Config.initial_pool, cfgBase])
  have hmem : (stepMonth cfgBase expOne 1 (rngHalf 0)
      (rngHalf (0 + (drawCount stBase - 1))) stBase).2 ∈
      runAux cfgBase expOne rngHalf 1 1 0 stBase := by
    rw [runAux]
    exact List.mem_cons_self _ _
  exact ⟨_, hmem, h.1 _ hmem⟩

/-! C7: determinism in the random source. -/

theorem drawCount_pos (st : SimState) : 1 ≤ drawCount st := by
  rw [drawCount]
  split <;> norm_num

theorem finalCursor_le (cfg : Config) (expQ : ℚ → ℚ) (rng : ℕ → ℚ) :
    ∀ rem month cursor st,
      cursor ≤ finalCursor cfg expQ rng rem month cursor st := by
  intro rem
  induction rem with
  | zero =>
    intro month cursor st
    rw [finalCursor]
  | succ k ih =>
    intro month cursor st
    rw [finalCursor]
    exact le_trans (Nat.le_add_right _ _) (ih _ _ _)

theorem runAux_agree (cfg : Config) (expQ : ℚ → ℚ) (r1 r2 : ℕ → ℚ) :
    ∀ rem month cursor st,
      (∀ i, i < finalCursor cfg expQ r1 rem month cursor st → r1 i = r2 i) →
      runAux cfg expQ r1 rem month cursor st =
        runAux cfg expQ r2 rem month cursor st := by
  intro rem
  induction rem with
  | zero =>
    intro month cursor st _
    rw [runAux, runAux]
  | succ k ih =>
    intro month cursor st hAg
    have hfin : cursor + drawCount st ≤
        finalCursor cfg expQ r1 (k + 1) month cursor st := by
      rw [finalCursor]
      exact finalCursor_le cfg expQ r1 k (month + 1) (cursor + drawCount st) _
    have h0 : r1 cursor = r2 cursor := by
      refine hAg cursor (lt_of_lt_of_le ?_ hfin)
      have := drawCount_pos st
      omega
    have h1 : r1 (cursor + (drawCount st - 1)) =
        r2 (cursor + (drawCount st - 1)) := by
      refine hAg _ (lt_of_lt_of_le ?_ hfin)
      have := drawCount_pos st
      omega
    rw [runAux, runAux, ← h0, ← h1]
    have htail := ih (month + 1) (cursor + drawCount st)
      (stepMonth cfg expQ month (r1 cursor) (r1 (cursor + (drawCount st - 1))) st).1
      (fun i hi => hAg i (by rw [finalCursor]; exact hi))
    rw [htail]

/-- C7: the simulation is a pure function of the configuration, the month
count, and the stream of underlying random draws, consumed at the two fixed
per-month sites in program order — the sentiment-event draw (taken only in
months whose event counter is zero) followed by the mission-fluctuation
draw.  Two runs whose streams agree on every position the first run consumes
produce identical output sequences; in particular identical streams
(identical seed) give identical outputs. -/
theorem C7_determinism (cfg : Config) (expQ : ℚ → ℚ) (r1 r2 : ℕ → ℚ)
    (months : ℕ)
    (hAg : ∀ i, i < simulateDraws cfg expQ r1 months → r1 i = r2 i) :
    simulate cfg expQ r1 months = simulate cfg expQ r2 months := by
  rcases hinit : initState cfg with _ | st0
  · simp [simulate, hinit]
  · rw [simulate, simulate, hinit, Option.map_some', Option.map_some']
    congr 1
    refine runAux_agree cfg expQ r1 r2 months 1 0 st0 ?_
    intro i hi
    refine hAg i ?_
    rw [simulateDraws, hinit]
    exact hi

/-- The stream that agrees with `rngHalf` on the two consumed draws of a
one-month run of `cfgBase` and differs everywhere after. -/
def rngAlt : ℕ → ℚ := fun i => if i < 2 then 1 / 2 else 7

/-- C7 (witness): a one-month run of `cfgBase` consumes exactly two draws
(sentiment event, then fluctuation); the stream that differs from `rngHalf`
only from position 2 onwards produces the identical output. -/
theorem C7_determinism_witness :
    simulate cfgBase expOne rngHalf 1 = simulate cfgBase expOne rngAlt 1 := by
  have hd : simulateDraws cfgBase expOne rngHalf 1 = 2 := by
    rw [simulateDraws, initState_cfgBase]
    norm_num [finalCursor, drawCount, stBase]
  refine C7_determinism cfgBase expOne rngHalf rngAlt 1 ?_
  intro i hi
  rw [hd] at hi
  interval_cases i <;> rfl

/-! C8: the mission generation model. -/

theorem lookup_snd_mem {l : List (ℕ × ℚ)} {k : ℕ} {v : ℚ}
    (h : l.lookup k = some v) : ∃ p ∈ l, p.2 = v := by
  induction l with
  | nil => simp [List.lookup] at h
  | cons hd tl ih =>
    obtain ⟨k1, v1⟩ := hd
    rw [List.lookup] at h
    cases hbe : (k == k1)
    · rw [hbe] at h
      simp only at h
      obtain ⟨p, hp, hv⟩ := ih h
      exact ⟨p, List.mem_cons_of_mem _ hp, hv⟩
    · rw [hbe] at h
      simp only [Option.some.injEq] at h
      exact ⟨(k1, v1), List.mem_cons_self _ _, by simp [h]⟩

/-- A seasonality table of non-negative factors yields a non-negative
seasonal factor. -/
theorem seasonalFactor_nonneg (cfg : Config) (month : ℕ)
    (hseas : ∀ p ∈ cfg.seasonality, 0 ≤ p.2) : 0 ≤ seasonalFactor cfg month := by
  rw [seasonalFactor]
  rcases hl : cfg.seasonality.lookup ((month - 1) % 12 + 1) with _ | v
  · norm_num
  · obtain ⟨p, hp, hv⟩ := lookup_snd_mem hl
    have := hseas p hp
    rw [hv] at this
    simpa using this

/-- A negative seasonal factor for January: the mission count of month 1 is
negative. -/
def cfgC8 : Config := { cfgBase with seasonality := [(1, -1)] }

/-- C8 (counterexample): the computed mission count is NOT always
non-negative, and a real value below 1 need not give zero missions: Python's
`int` truncates toward zero, so a negative product (here via a negative
configured seasonal factor, `5 × (−1) = −5`) is recorded as a negative
mission count. -/
theorem C8_counterexample :
    ∃ r ∈ (simulate cfgC8 expOne rngHalf 1).getD [], r.missions < 0 := by
  have h0 : initState cfgC8 = some stBase := by
    simp [initState, cfgC8, cfgBase, stBase, List.get?, privateSaleVestingTokens,
      zeroVestingTokens, mkVSchedule, Config.builders_tokens0, Config.dao_treasury0,
      Config.airdrops_tokens, Config.initial_pool, Config.testnet_tokens0]
    norm_num
  have ht5 : ratTrunc (-(5 : ℚ)) = -5 := by
    rw [ratTrunc_neg]
    rw [ratTrunc_eq_of_nonneg (n := 5) (by norm_num) (by norm_num) (by norm_num)]
  have hmc : missionCount cfgC8 expOne 1 (1 / 2) = -5 := by
    simp [missionCount, seasonalFactor, cfgC8, cfgBase, expOne, List.lookup]
    norm_num
    exact ht5
  have hdc : drawCount stBase = 2 := by norm_num [drawCount, stBase]
  have hstep := stepMonth_no_mission cfgC8 expOne 1 (1 / 2) (1 / 2) stBase
    (by rw [hmc]; norm_num)
  simp only [simulate, h0, Option.map_some', Option.getD_some, runAux, hdc, rngHalf,
    hstep]
  simp [mkRecord]
  norm_num [hmc]

/-- C8 (amended): the recorded mission count of every month is exactly the
truncation toward zero of
`carrying_capacity / (1 + exp(−growth_rate × (month − inflection_point)))
 × seasonal_factor((month−1) mod 12 + 1, default 1) × (1 + fluctuation)`,
with `fluctuation = −rf + (rf −(−rf)) × u` for the month's uniform draw
`u ∈ [0,1]`; and provided carrying capacity and all configured seasonal
factors are non-negative and `random_fluctuation ≤ 1` (the counterexample
shows non-negativity fails otherwise), the count is never negative and a
product below 1 yields zero missions. -/
theorem C8_mission_generation (cfg : Config) (expQ : ℚ → ℚ) (month : ℕ)
    (uE uF : ℚ) (st : SimState)
    (hexp : ∀ x, 0 < expQ x)
    (hcc : 0 ≤ cfg.carrying_capacity)
    (hseas : ∀ p ∈ cfg.seasonality, 0 ≤ p.2)
    (hrf1 : cfg.random_fluctuation ≤ 1)
    (hu0 : 0 ≤ uF) (_hu1 : uF ≤ 1) :
    (stepMonth cfg expQ month uE uF st).2.missions =
      ratTrunc (cfg.carrying_capacity /
          (1 + expQ (-(cfg.growth_rate * ((month : ℚ) - cfg.inflection_point)))) *
          ((cfg.seasonality.lookup ((month - 1) % 12 + 1)).getD 1) *
          (1 + (-cfg.random_fluctuation +
            (cfg.random_fluctuation - -cfg.random_fluctuation) * uF))) ∧
    (0 ≤ cfg.random_fluctuation →
      0 ≤ (stepMonth cfg expQ month uE uF st).2.missions ∧
      (cfg.carrying_capacity /
          (1 + expQ (-(cfg.growth_rate * ((month : ℚ) - cfg.inflection_point)))) *
          ((cfg.seasonality.lookup ((month - 1) % 12 + 1)).getD 1) *
          (1 + (-cfg.random_fluctuation +
            (cfg.random_fluctuation - -cfg.random_fluctuation) * uF)) < 1 →
        (stepMonth cfg expQ month uE uF st).2.missions = 0)) := by
  have hrec : (stepMonth cfg expQ month uE uF st).2.missions =
      missionCount cfg expQ month uF := rfl
  have hform : missionCount cfg expQ month uF =
      ratTrunc (cfg.carrying_capacity /
        (1 + expQ (-(cfg.growth_rate * ((month : ℚ) - cfg.inflection_point)))) *
        ((cfg.seasonality.lookup ((month - 1) % 12 + 1)).getD 1) *
        (1 + (-cfg.random_fluctuation +
          (cfg.random_fluctuation - -cfg.random_fluctuation) * uF))) := rfl
  refine ⟨hrec.trans hform, ?_⟩
  intro hrf0
  have hbase : 0 ≤ cfg.carrying_capacity /
      (1 + expQ (-(cfg.growth_rate * ((month : ℚ) - cfg.inflection_point)))) := by
    have := hexp (-(cfg.growth_rate * ((month : ℚ) - cfg.inflection_point)))
    exact div_nonneg hcc (by linarith)
  have hseasf : 0 ≤ ((cfg.seasonality.lookup ((month - 1) % 12 + 1)).getD 1) := by
    have := seasonalFactor_nonneg cfg month hseas
    rw [seasonalFactor] at this
    exact this
  have hfluct : 0 ≤ 1 + (-cfg.random_fluctuation +
      (cfg.random_fluctuation - -cfg.random_fluctuation) * uF) := by
    have hm : 0 ≤ (cfg.random_fluctuation - -cfg.random_fluctuation) * uF :=
      mul_nonneg (by linarith) hu0
    linarith
  have hprod : 0 ≤ cfg.carrying_capacity /
      (1 + expQ (-(cfg.growth_rate * ((month : ℚ) - cfg.inflection_point)))) *
      ((cfg.seasonality.lookup ((month - 1) % 12 + 1)).getD 1) *
      (1 + (-cfg.random_fluctuation +
        (cfg.random_fluctuation - -cfg.random_fluctuation) * uF)) :=
    mul_nonneg (mul_nonneg hbase hseasf) hfluct
  constructor
  · rw [hrec.trans hform]
    exact ratTrunc_nonneg hprod
  · intro hlt
    rw [hrec.trans hform]
    exact ratTrunc_eq_zero hprod hlt

/-- C8 (witness): in `cfgBase` (non-negative carrying capacity, empty
seasonality table, zero fluctuation range) the first month's recorded
mission count equals the truncated logistic product and is non-negative. -/
theorem C8_mission_generation_witness :
    (stepMonth cfgBase expOne 1 (1 / 2) (1 / 2) stBase).2.missions =
      ratTrunc (cfgBase.carrying_capacity /
        (1 + expOne (-(cfgBase.growth_rate * ((1 : ℚ) - cfgBase.inflection_point)))) *
        ((cfgBase.seasonality.lookup ((1 - 1) % 12 + 1)).getD 1) *
        (1 + (-cfgBase.random_fluctuation +
          (cfgBase.random_fluctuation - -cfgBase.random_fluctuation) * (1 / 2)))) ∧
    0 ≤ (stepMonth cfgBase expOne 1 (1 / 2) (1 / 2) stBase).2.missions := by
  have h := C8_mission_generation cfgBase expOne 1 (1 / 2) (1 / 2) stBase
    (fun x => by norm_num [expOne])
    (by norm_num [cfgBase])
    (by intro p hp; simp [cfgBase] at hp)
    (by norm_num [cfgBase])
    (by norm_num) (by norm_num)
  exact ⟨h.1, (h.2 (by norm_num [cfgBase])).1⟩

end Tokenomics
